import Mathlib

/-!
# Verification of the CaireTech dashboard data-mapping layer

Shallow embedding of the pure mapping/KPI functions of the repository
(the data-mapping utilities module: `parseDurationToMinutes`,
`mapInputToBaselineSchedule`, `mapRoutePlanToOptimizedSchedule`,
`computeKpis`, `simulateOptimizedSchedule`), together with theorems that
settle the specification claims about them.

Embedding conventions:

* JavaScript date strings are modelled by `DStr`: a string that parses as a
  date is represented as `DStr.iso ms` (its timestamp in milliseconds, which
  is what `new Date(s).getTime()` yields and what `Date.toISOString`
  round-trips); any non-parsing string is `DStr.garbage s`.  `new Date` of a
  garbage string is an invalid date (`getTime()` is NaN), modelled by
  `DStr.parse = none`.
* ISO-8601 duration strings are modelled by `DurStr`: a string in which the
  regex `PT(?:(\d+)H)?(?:(\d+)M)?(?:(\d+)S)?` (case-insensitive) finds a
  match is `DurStr.pt h m s` (missing groups are 0); a string with no match
  is `DurStr.nomatch s`.
* JavaScript truthiness of optional strings (`undefined` and `""` are falsy)
  is modelled by the `truthy`/`optTruthy`/`strTruthy` predicates, and the
  `a || b` idiom by the `jsOr*` helpers.
* Numbers that can become NaN at runtime (date subtractions fed into
  `Math.max`/`Math.min`/`Math.round`, which all propagate NaN) are modelled
  as `Option ℚ` with `none` standing for NaN; numbers that provably stay
  integral are modelled as `Nat`/`Int` directly.
* Functions that can throw (property access on `undefined`,
  `toISOString()` on an invalid date) return `Except String _`; the error
  string names the JavaScript error they model.
* `new Date()` ("now") is passed in as an explicit `now : Int` parameter to
  keep the functions pure.
* Floating-point geographic label formatting (`toFixed`) is abstracted: a
  coordinate-array location carries its rendered label as a field.
-/

/-- A JavaScript date string: either one that parses to a timestamp in
milliseconds (`iso`) or one that does not parse (`garbage`). -/
inductive DStr where
  | iso (ms : Int)
  | garbage (s : String)
deriving Repr, DecidableEq

/-- `new Date(s).getTime()`: `none` models NaN (invalid date). -/
def DStr.parse : DStr → Option Int
  | .iso ms => some ms
  | .garbage _ => none

/-- JavaScript truthiness of a date string (only the empty string is falsy;
a parseable ISO string is never empty). -/
def DStr.truthy : DStr → Bool
  | .iso _ => true
  | .garbage s => s ≠ ""

/-- Truthiness of an optional date string (`undefined` is falsy). -/
def optTruthy : Option DStr → Bool
  | none => false
  | some d => d.truthy

/-- The JavaScript `a || b` idiom on optional date strings. -/
def jsOrD (a b : Option DStr) : Option DStr :=
  if optTruthy a then a else b

/-- An ISO-8601 duration string as seen by `parseDurationToMinutes`: the
case-insensitive regex `PT(?:(\d+)H)?(?:(\d+)M)?(?:(\d+)S)?` either finds a
match somewhere in the string — represented as `pt h m s`, absent groups
being 0 — or finds none (`nomatch`). -/
inductive DurStr where
  | pt (h m s : Nat)
  | nomatch (str : String)
deriving Repr, DecidableEq

/-- JavaScript truthiness of a duration string. A matched `PT...` string is
nonempty, hence truthy. -/
def DurStr.truthy : DurStr → Bool
  | .pt _ _ _ => true
  | .nomatch s => s ≠ ""

/-- Truthiness of an optional duration string. -/
def durTruthy : Option DurStr → Bool
  | none => false
  | some d => d.truthy

/-- `parseDurationToMinutes(duration)`: returns 0 for `undefined`/empty
input and for strings the regex does not match; otherwise
`hours*60 + minutes + Math.ceil(seconds/60)`.  (A falsy — empty — string
returns 0 early in the source; an empty string also has no regex match, so
the two readings agree.) -/
def parseDurationToMinutes : Option DurStr → Nat
  | none => 0
  | some (.nomatch _) => 0
  | some (.pt h m s) => h * 60 + m + (s + 59) / 60

/-- The JavaScript `n || d` idiom on numbers known to be non-NaN naturals
(0 is falsy). -/
def jsOrNat (a b : Nat) : Nat :=
  if a = 0 then b else a

/-- The JavaScript `a || b` idiom on optional strings. -/
def jsOrStr (a : Option String) (b : String) : String :=
  match a with
  | some s => if s = "" then b else s
  | none => b

/-- The three-way `a || b || c` idiom on optional strings. -/
def jsOrStr3 (a b : Option String) (c : String) : String :=
  jsOrStr a (jsOrStr b c)

/-- A visit location: either a `[lat, lon]` coordinate array (whose
`toFixed(4)` rendering is abstracted as the carried `label`) or an object
with an optional address string. -/
inductive VisitLocation where
  | coords (label : String)
  | obj (address : Option String)
deriving Repr, DecidableEq

/-- `getVisitAddress(location)`: falsy location yields `undefined`; an array
yields its rendered coordinate label; an object yields its address field. -/
def getVisitAddress : Option VisitLocation → Option String
  | none => none
  | some (.coords label) => some label
  | some (.obj address) => address

/-- A shift: both the local (`startTime`/`endTime`) and the Timefold
(`minStartTime`/`maxEndTime`) schemas, all optional date strings. -/
structure Shift where
  startTime : Option DStr := none
  endTime : Option DStr := none
  minStartTime : Option DStr := none
  maxEndTime : Option DStr := none
deriving Repr, DecidableEq

/-- A vehicle. `name` is optional (Timefold format falls back to `id`). -/
structure Vehicle where
  id : String
  name : Option String := none
  shifts : List Shift
  skills : Option (List String) := none
deriving Repr, DecidableEq

/-- A visit. `serviceDuration` is a duration string; `location` is kept
optional because the mapping code guards against a missing one. -/
structure Visit where
  id : String
  name : String
  location : Option VisitLocation := none
  serviceDuration : DurStr
deriving Repr, DecidableEq

/-- The root model input: vehicles and visits. -/
structure TimefoldModelInput where
  vehicles : List Vehicle
  visits : List Visit
deriving Repr, DecidableEq

/-- `getShiftStartTime(shift)`: `shift.startTime || shift.minStartTime`. -/
def getShiftStartTime (s : Shift) : Option DStr :=
  jsOrD s.startTime s.minStartTime

/-- `getShiftEndTime(shift)`: `shift.endTime || shift.maxEndTime`. -/
def getShiftEndTime (s : Shift) : Option DStr :=
  jsOrD s.endTime s.maxEndTime

/-- A normalized scheduler resource. -/
structure SchedulerResource where
  id : String
  name : String
  skills : Option (List String) := none
  shiftStart : Option DStr := none
  shiftEnd : Option DStr := none
deriving Repr, DecidableEq

/-- A normalized scheduler event.  `startDate`/`endDate` are the stored
date strings (raw shift strings for break events, `toISOString()` output —
always `DStr.iso` — for computed ones). -/
structure SchedulerEvent where
  id : String
  resourceId : String
  startDate : DStr
  endDate : DStr
  name : String
  eventType : String
  status : String
  visitId : Option String := none
  address : Option String := none
  travelTime : Option Nat := none
deriving Repr, DecidableEq

/-- Normalized scheduler data: resources plus events. -/
structure SchedulerData where
  resources : List SchedulerResource
  events : List SchedulerEvent
deriving Repr, DecidableEq

/-- Projection of one vehicle to a resource.  The source reads
`vehicle.shifts[0]` and immediately dereferences it inside
`getShiftStartTime`, so a vehicle with an empty `shifts` list raises a
TypeError (modelled as `Except.error`). -/
def vehicleResource (v : Vehicle) : Except String SchedulerResource :=
  match v.shifts.head? with
  | none => .error ("TypeError: cannot read startTime of undefined")
  | some firstShift =>
    .ok { id := v.id
          name := jsOrStr v.name v.id
          skills := v.skills
          shiftStart := getShiftStartTime firstShift
          shiftEnd := getShiftEndTime firstShift }

/-- Resource projection over the whole vehicle list (first error wins, as
the JavaScript loop throws at the first offending vehicle). -/
def mapVehicleResources : List Vehicle → Except String (List SchedulerResource)
  | [] => .ok []
  | v :: rest => do
    let r ← vehicleResource v
    let t ← mapVehicleResources rest
    .ok (r :: t)

/-- Break-kind "Available" events for one vehicle: one per shift whose two
resolved bound strings are both truthy.  The raw strings are stored
unvalidated — no parse and no ordering check. -/
def shiftBreakEvents (vid : String) : Nat → List Shift → List SchedulerEvent
  | _, [] => []
  | i, sh :: rest =>
    (match getShiftStartTime sh, getShiftEndTime sh with
     | some s, some e =>
       if s.truthy ∧ e.truthy then
         [{ id := "shift-" ++ vid ++ "-" ++ toString i
            resourceId := vid
            startDate := s
            endDate := e
            name := "Available"
            eventType := "break"
            status := "baseline" }]
       else []
     | _, _ => []) ++ shiftBreakEvents vid (i + 1) rest

/-- All break-kind events of the baseline schedule, in vehicle order. -/
def allBreakEvents : List Vehicle → List SchedulerEvent
  | [] => []
  | v :: rest => shiftBreakEvents v.id 0 v.shifts ++ allBreakEvents rest

/-- One round of the baseline visit loop: visit number `i` is assigned to
vehicle `i % vehicles.length` and placed at that vehicle's first shift start
advanced by `(i / vehicles.length) * (30 + 15)` minutes; the event ends
after the visit's parsed duration (`|| 30`).  With no vehicles the index
expression is NaN, `vehicles[NaN]` is `undefined`, and reading `.shifts`
throws.  A missing first shift, a falsy resolved start string or an
unparseable start date each skip the visit (`.ok none`). -/
def baselineVisitEvent (vehicles : List Vehicle) (i : Nat) (visit : Visit) :
    Except String (Option SchedulerEvent) :=
  match vehicles with
  | [] => .error ("TypeError: cannot read shifts of undefined")
  | v0 :: rest =>
    let vs := v0 :: rest
    let vehicle := vs.getD (i % vs.length) v0
    match vehicle.shifts.head? with
    | none => .ok none
    | some shift =>
      match getShiftStartTime shift with
      | none => .ok none
      | some sd =>
        if sd.truthy = false then .ok none
        else
          match sd.parse with
          | none => .ok none
          | some s0 =>
            let startMs : Int := s0 + ((i / vs.length) * (45 * 60000) : Nat)
            let dur : Nat := jsOrNat (parseDurationToMinutes (some visit.serviceDuration)) 30
            let endMs : Int := startMs + (dur * 60000 : Nat)
            if startMs ≥ endMs then .ok none
            else
              .ok (some
                { id := "baseline-" ++ visit.id
                  resourceId := vehicle.id
                  startDate := .iso startMs
                  endDate := .iso endMs
                  name := visit.name
                  eventType := "visit"
                  status := "baseline"
                  visitId := some visit.id
                  address := getVisitAddress visit.location })

/-- The baseline visit loop from index `i` on. -/
def baselineVisitEvents (vehicles : List Vehicle) :
    Nat → List Visit → Except String (List SchedulerEvent)
  | _, [] => .ok []
  | i, v :: rest => do
    let ev? ← baselineVisitEvent vehicles i v
    let tail ← baselineVisitEvents vehicles (i + 1) rest
    .ok (ev?.toList ++ tail)

/-- `mapInputToBaselineSchedule(modelInput)`: vehicle resources, then
break-kind shift-availability events, then round-robin visit events. -/
def mapInputToBaselineSchedule (m : TimefoldModelInput) :
    Except String SchedulerData := do
  let resources ← mapVehicleResources m.vehicles
  let breaks := allBreakEvents m.vehicles
  let visitEvents ← baselineVisitEvents m.vehicles 0 m.visits
  .ok { resources := resources, events := breaks ++ visitEvents }

/-- A planned visit inside a solver route.  The TypeScript interface
declares `id` required, but runtime payloads have been observed to omit
fields (the code defends every access with `||`/optional chaining), so all
fields are optional here. -/
structure PlannedVisit where
  id : Option String := none
  visitId : Option String := none
  arrivalTime : Option DStr := none
  departureTime : Option DStr := none
  startServiceTime : Option DStr := none
  travelTimeFromPrevious : Option DurStr := none
deriving Repr, DecidableEq

/-- A per-vehicle route of the solver result. -/
structure VehicleRoute where
  vehicleId : String
  visits : List PlannedVisit
  totalTravelTime : Option DurStr := none
deriving Repr, DecidableEq

/-- An entry of the route plan's `unassignedVisits` list (`{id, name?}`). -/
structure VisitRef where
  id : String
  name : Option String := none
deriving Repr, DecidableEq

/-- Optional aggregate metrics attached to a route plan. -/
structure RoutePlanMetrics where
  totalTravelTime : Option DurStr := none
  totalServiceTime : Option DurStr := none
  unassignedVisits : Option Nat := none
  assignedVisits : Option Nat := none
deriving Repr, DecidableEq

/-- The raw solver result consumed by the mapping layer. -/
structure TimefoldRoutePlan where
  routes : Option (List VehicleRoute) := none
  unassignedVisits : Option (List VisitRef) := none
  metrics : Option RoutePlanMetrics := none
deriving Repr, DecidableEq

/-- JavaScript `Map.set`: overwrite in place if the key exists, else append. -/
def jsMapSet {α : Type} : List (String × α) → String → α → List (String × α)
  | [], k, v => [(k, v)]
  | (k0, v0) :: rest, k, v =>
    if k0 = k then (k0, v) :: rest else (k0, v0) :: jsMapSet rest k v

/-- JavaScript `Map.get`: the stored value or `undefined`. -/
def jsMapGet {α : Type} : List (String × α) → String → Option α
  | [], _ => none
  | (k0, v0) :: rest, k => if k0 = k then some v0 else jsMapGet rest k

/-- The visit lookup map built by `modelInput.visits.forEach(set)`. -/
def buildVisitMap (visits : List Visit) : List (String × Visit) :=
  visits.foldl (fun m v => jsMapSet m v.id v) []

/-- `getShiftStartTime(shift) || new Date().toISOString()`. -/
def jsOrDateNow (a : Option DStr) (now : Int) : DStr :=
  match a with
  | some d => if d.truthy then d else .iso now
  | none => .iso now

/-- The fallback base time of the optimized mapper:
`modelInput.vehicles[0]?.shifts[0]` dereferenced by `getShiftStartTime`.
When there is no first vehicle or it has no first shift the chain yields
`undefined` and `getShiftStartTime` throws. -/
def fallbackBase (now : Int) (m : TimefoldModelInput) : Except String DStr :=
  match m.vehicles.head? with
  | none => .error ("TypeError: cannot read startTime of undefined")
  | some v =>
    match v.shifts.head? with
    | none => .error ("TypeError: cannot read startTime of undefined")
    | some sh => .ok (jsOrDateNow (getShiftStartTime sh) now)

/-- The resolved id of a planned visit:
`plannedVisit.id || plannedVisit.visitId || "unknown-" + index`. -/
def resolvedVisitId (pv : PlannedVisit) (i : Nat) : String :=
  jsOrStr3 pv.id pv.visitId ("unknown-" ++ toString i)

/-- Step "if we have a start but no end, calculate end from service
duration" (applied only when the start parses; otherwise the end string is
left unchanged). -/
def deriveEnd (dur : Nat) (s0 e0 : Option DStr) : Option DStr :=
  if optTruthy s0 ∧ ¬ optTruthy e0 then
    match s0 with
    | some d =>
      match d.parse with
      | some ms => some (.iso (ms + (dur * 60000 : Nat)))
      | none => e0
    | none => e0
  else e0

/-- Step "if we have an end but no start, calculate start from service
duration" (the end string examined is the possibly-derived one). -/
def deriveStart (dur : Nat) (s0 e1 : Option DStr) : Option DStr :=
  if ¬ optTruthy s0 ∧ optTruthy e1 then
    match e1 with
    | some d =>
      match d.parse with
      | some ms => some (.iso (ms - (dur * 60000 : Nat)))
      | none => s0
    | none => s0
  else s0

/-- The event pushed for a routed planned visit. -/
def mkOptEvent (vehicleId visitId : String) (visitDetails : Option Visit)
    (pv : PlannedVisit) (i : Nat) (sd ed : DStr) : SchedulerEvent :=
  { id := "opt-" ++ visitId ++ "-" ++ toString i
    resourceId := vehicleId
    startDate := sd
    endDate := ed
    name := jsOrStr (visitDetails.map Visit.name) visitId
    eventType := "visit"
    status := "optimized"
    visitId := some visitId
    address := getVisitAddress (visitDetails.bind Visit.location)
    travelTime := some (parseDurationToMinutes pv.travelTimeFromPrevious) }

/-- Final validation of a resolved (truthy) start/end pair: unparseable
dates skip the visit (clock unchanged); an inverted pair is healed by
recomputing `end = start + serviceDuration`; the clock is set to the final
end timestamp. -/
def finishVisit (vehicleId visitId : String) (visitDetails : Option Visit)
    (pv : PlannedVisit) (i : Nat) (dur : Nat) (ct : Option Int) (sd ed : DStr) :
    Except String (Option Int × Option SchedulerEvent) :=
  match sd.parse, ed.parse with
  | some st, some et =>
    if st ≥ et then
      .ok (some (st + (dur * 60000 : Nat)),
           some (mkOptEvent vehicleId visitId visitDetails pv i sd
                   (.iso (st + (dur * 60000 : Nat)))))
    else
      .ok (some et, some (mkOptEvent vehicleId visitId visitDetails pv i sd ed))
  | _, _ => .ok (ct, none)

/-- One iteration of the planned-visit loop of
`mapRoutePlanToOptimizedSchedule`.  Returns the updated per-route clock
(`currentTime`) and the emitted event, if any.

Faithful staging of the source:
1. `startDateStr = arrivalTime || startServiceTime`, `endDateStr = departureTime`;
2. `deriveEnd`, then `deriveStart`;
3. if both strings are truthy, `finishVisit` validates/heals/emits;
4. otherwise sequential fallback placement from the clock (advanced 15
   minutes for every visit after the first); `toISOString()` on an invalid
   clock throws. -/
def processPlannedVisit (vm : List (String × Visit)) (vehicleId : String)
    (ct : Option Int) (i : Nat) (pv : PlannedVisit) :
    Except String (Option Int × Option SchedulerEvent) :=
  let visitId := resolvedVisitId pv i
  let visitDetails := jsMapGet vm visitId
  let serviceDuration :=
    jsOrNat (parseDurationToMinutes (visitDetails.map Visit.serviceDuration)) 30
  let s0 := jsOrD pv.arrivalTime pv.startServiceTime
  let e0 := pv.departureTime
  let e1 := deriveEnd serviceDuration s0 e0
  let s1 := deriveStart serviceDuration s0 e1
  if optTruthy s1 ∧ optTruthy e1 then
    finishVisit vehicleId visitId visitDetails pv i serviceDuration ct
      (s1.getD (.garbage "")) (e1.getD (.garbage ""))
  else
    match (if i > 0 then ct.map (· + 900000) else ct) with
    | none => .error ("RangeError: invalid time value")
    | some c =>
      .ok (some (c + (serviceDuration * 60000 : Nat)),
           some (mkOptEvent vehicleId visitId visitDetails pv i (.iso c)
                   (.iso (c + (serviceDuration * 60000 : Nat)))))

/-- The planned-visit loop of one route, threading the per-route clock. -/
def processRouteVisits (vm : List (String × Visit)) (vehicleId : String) :
    Nat → Option Int → List PlannedVisit → Except String (List SchedulerEvent)
  | _, _, [] => .ok []
  | i, ct, pv :: rest => do
    let (ct1, ev?) ← processPlannedVisit vm vehicleId ct i pv
    let tail ← processRouteVisits vm vehicleId (i + 1) ct1 rest
    .ok (ev?.toList ++ tail)

/-- The route loop: each route restarts its clock at the fallback base. -/
def processRoutes (vm : List (String × Visit)) (base : DStr) :
    List VehicleRoute → Except String (List SchedulerEvent)
  | [] => .ok []
  | r :: rest => do
    let evs ← processRouteVisits vm r.vehicleId 0 base.parse r.visits
    let tail ← processRoutes vm base rest
    .ok (evs ++ tail)

/-- The synthetic resource appended for unassigned visits. -/
def unassignedResource : SchedulerResource :=
  { id := "unassigned", name := "⚠️ Unassigned" }

/-- One unassigned visit reference rendered as an event: start at the base
time plus a 45-minute stride per index, end after the model visit's parsed
duration (`|| 30`), name `visit.name || fullVisit?.name || visit.id`.  An
invalid base date reaches `toISOString()` and throws (the `start >= end`
guard compares NaN and never fires for it). -/
def unassignedEvent (vm : List (String × Visit)) (baseMs : Option Int)
    (i : Nat) (ref : VisitRef) : Except String (Option SchedulerEvent) :=
  match baseMs with
  | none => .error ("RangeError: invalid time value")
  | some b =>
    let startMs : Int := b + (i * 45 * 60000 : Nat)
    let fullVisit := jsMapGet vm ref.id
    let dur : Nat := jsOrNat (parseDurationToMinutes (fullVisit.map Visit.serviceDuration)) 30
    let endMs : Int := startMs + (dur * 60000 : Nat)
    if startMs ≥ endMs then .ok none
    else
      .ok (some
        { id := "unassigned-" ++ ref.id
          resourceId := "unassigned"
          startDate := .iso startMs
          endDate := .iso endMs
          name := jsOrStr3 ref.name (fullVisit.map Visit.name) ref.id
          eventType := "visit"
          status := "optimized"
          visitId := some ref.id
          address := getVisitAddress (fullVisit.bind Visit.location) })

/-- The unassigned-visit loop from index `i` on. -/
def unassignedEvents (vm : List (String × Visit)) (baseMs : Option Int) :
    Nat → List VisitRef → Except String (List SchedulerEvent)
  | _, [] => .ok []
  | i, ref :: rest => do
    let ev? ← unassignedEvent vm baseMs i ref
    let tail ← unassignedEvents vm baseMs (i + 1) rest
    .ok (ev?.toList ++ tail)

/-- The route-processing half of the optimized mapper: nothing when
`routePlan.routes` is absent, otherwise the fallback base is resolved (this
can throw) and every route is processed. -/
def routeEventsOf (now : Int) (m : TimefoldModelInput)
    (vm : List (String × Visit)) :
    Option (List VehicleRoute) → Except String (List SchedulerEvent)
  | some routes => do
    let base ← fallbackBase now m
    processRoutes vm base routes
  | none => .ok []

/-- The unassigned-visits half of the optimized mapper: when the
`unassignedVisits` list is present and non-empty, the synthetic
`unassigned` resource is appended and one event per reference is rendered
from the fallback base time; otherwise the data is returned unchanged. -/
def attachUnassigned (now : Int) (m : TimefoldModelInput)
    (vm : List (String × Visit)) (resources : List SchedulerResource)
    (routeEvents : List SchedulerEvent) :
    Option (List VisitRef) → Except String SchedulerData
  | some refs =>
    if refs.length > 0 then do
      let base2 ← fallbackBase now m
      let uevs ← unassignedEvents vm base2.parse 0 refs
      .ok { resources := resources ++ [unassignedResource]
            events := routeEvents ++ uevs }
    else .ok { resources := resources, events := routeEvents }
  | none => .ok { resources := resources, events := routeEvents }

/-- `mapRoutePlanToOptimizedSchedule(routePlan, modelInput)`.  `now` stands
for `new Date()` (the source evaluates it twice — once for the route
fallback base and once for the unassigned base — the model passes the same
instant to both, which is the only observable use). -/
def mapRoutePlanToOptimizedSchedule (now : Int) (routePlan : TimefoldRoutePlan)
    (m : TimefoldModelInput) : Except String SchedulerData := do
  let visitMap := buildVisitMap m.visits
  let resources ← mapVehicleResources m.vehicles
  let routeEvents ← routeEventsOf now m visitMap routePlan.routes
  attachUnassigned now m visitMap resources routeEvents routePlan.unassignedVisits

/-- `Math.round` on a (non-NaN) JavaScript number: round half toward
positive infinity. -/
def jsRound (q : ℚ) : Int := ⌊q + 1/2⌋

/-- `Math.round` on a NaN-able number (`none` = NaN, which `Math.round`
propagates). -/
def jsRoundO (a : Option ℚ) : Option Int := a.map jsRound

/-- Addition of NaN-able numbers (NaN propagates). -/
def jadd (a b : Option ℚ) : Option ℚ :=
  match a, b with
  | some x, some y => some (x + y)
  | _, _ => none

/-- The `a || b` idiom on optional strings where the result is used as a
string value (not defaulted): returns `b` as-is when `a` is falsy. -/
def jsOrOptStr (a b : Option String) : Option String :=
  match a with
  | some s => if s = "" then b else a
  | none => b

/-- Wait time contributed by one planned visit: present only when both
`arrivalTime` and `startServiceTime` are truthy;
`Math.max(0, (start - arrival)/60000)` is NaN (`none`) when either date
fails to parse, because `Math.max` propagates NaN. -/
def waitOf (pv : PlannedVisit) : Option ℚ :=
  if optTruthy pv.arrivalTime ∧ optTruthy pv.startServiceTime then
    match (pv.arrivalTime.getD (.garbage "")).parse,
          (pv.startServiceTime.getD (.garbage "")).parse with
    | some a, some s => some (max 0 (((s - a : Int) : ℚ) / 60000))
    | _, _ => none
  else some 0

/-- Sum of the parsed `travelTimeFromPrevious` values of a route's visits. -/
def routeVisitsTravel (visits : List PlannedVisit) : Nat :=
  visits.foldl (fun acc pv => acc + parseDurationToMinutes pv.travelTimeFromPrevious) 0

/-- The travel-time accumulation over routes: each route first adds its
per-visit travel values to the running total, then — if it carries a truthy
`totalTravelTime` aggregate — REPLACES the entire running total with that
aggregate (so the last aggregate-carrying route wins). -/
def routeTravelFold : Nat → List VehicleRoute → Nat
  | acc, [] => acc
  | acc, r :: rest =>
    let acc1 := acc + routeVisitsTravel r.visits
    let acc2 :=
      if durTruthy r.totalTravelTime then parseDurationToMinutes r.totalTravelTime
      else acc1
    routeTravelFold acc2 rest

/-- Lookup of a model visit by `visit.id || visit.visitId` (strict equality
against `undefined` never matches). -/
def findVisitByRef (m : TimefoldModelInput) (vid? : Option String) : Option Visit :=
  match vid? with
  | none => none
  | some vid => m.visits.find? (fun v => v.id = vid)

/-- Service minutes charged for one planned visit in the KPI sums:
the model visit's parsed duration (`|| 30`), the visit being looked up by
`visit.id || visit.visitId`. -/
def serviceOfPv (m : TimefoldModelInput) (pv : PlannedVisit) : Nat :=
  jsOrNat
    (parseDurationToMinutes
      ((findVisitByRef m (jsOrOptStr pv.id pv.visitId)).map Visit.serviceDuration)) 30

/-- Assigned-visit count: sum of per-route visit counts. -/
def kpiAssigned (routes : List VehicleRoute) : Nat :=
  routes.foldl (fun a r => a + r.visits.length) 0

/-- Optimized service time: sum of `serviceOfPv` over all routed visits. -/
def kpiServiceOpt (m : TimefoldModelInput) (routes : List VehicleRoute) : Nat :=
  routes.foldl (fun a r => r.visits.foldl (fun b pv => b + serviceOfPv m pv) a) 0

/-- Optimized wait time: sum of `waitOf` over all routed visits (NaN-able). -/
def kpiWaitOpt (routes : List VehicleRoute) : Option ℚ :=
  routes.foldl (fun a r => r.visits.foldl (fun b pv => jadd b (waitOf pv)) a) (some 0)

/-- Baseline service time: sum of each visit's parsed duration (`|| 30`). -/
def baselineServiceTimeOf (m : TimefoldModelInput) : Nat :=
  m.visits.foldl
    (fun a v => a + jsOrNat (parseDurationToMinutes (some v.serviceDuration)) 30) 0

/-- One visit's contribution to the per-vehicle work time used for
utilization: the model visit's duration — looked up by `pv.visitId` ONLY
(not `pv.id`), as in the source — plus travel, plus the conditional wait
term. -/
def vehicleWorkStep (m : TimefoldModelInput) (acc : Option ℚ)
    (pv : PlannedVisit) : Option ℚ :=
  let serv := jsOrNat
    (parseDurationToMinutes ((findVisitByRef m pv.visitId).map Visit.serviceDuration)) 30
  let trav := parseDurationToMinutes pv.travelTimeFromPrevious
  jadd (jadd acc (some ((serv + trav : Nat) : ℚ))) (waitOf pv)

/-- Per-vehicle optimized work time used for utilization. -/
def vehicleWorkTime (m : TimefoldModelInput) (route : VehicleRoute) : Option ℚ :=
  route.visits.foldl (vehicleWorkStep m) (some 0)

/-- One iteration of the per-vehicle utilization loop, updating the
(baseline, optimized) utilization maps.  Skips vehicles without a first
shift, without both truthy shift bound strings, or whose shift duration is
NaN or non-positive. -/
def utilStep (m : TimefoldModelInput) (rp : Option TimefoldRoutePlan)
    (workB : Nat)
    (maps : List (String × Option Int) × List (String × Option Int))
    (v : Vehicle) :
    List (String × Option Int) × List (String × Option Int) :=
  match v.shifts.head? with
  | none => maps
  | some shift =>
    let sStr := getShiftStartTime shift
    let eStr := getShiftEndTime shift
    if ¬ (optTruthy sStr ∧ optTruthy eStr) then maps
    else
      match (sStr.getD (.garbage "")).parse, (eStr.getD (.garbage "")).parse with
      | some a, some b =>
        let shiftDuration : ℚ := ((b - a : Int) : ℚ) / 60000
        if shiftDuration ≤ 0 then maps
        else
          let baselineWorkload : ℚ := (workB : ℚ) / m.vehicles.length
          let baselineUtil : ℚ := min 100 (baselineWorkload / shiftDuration * 100)
          let mb := jsMapSet maps.1 v.id (some (jsRound baselineUtil))
          let mo :=
            match rp.bind TimefoldRoutePlan.routes with
            | some routes =>
              match routes.find? (fun r => r.vehicleId = v.id) with
              | some route =>
                jsMapSet maps.2 v.id
                  ((vehicleWorkTime m route).map
                    (fun w => jsRound (min 100 (w / shiftDuration * 100))))
              | none => jsMapSet maps.2 v.id (some 0)
            | none => jsMapSet maps.2 v.id (some (jsRound baselineUtil))
          (mb, mo)
      | _, _ => maps

/-- The whole utilization loop over the vehicle list. -/
def utilMaps (m : TimefoldModelInput) (rp : Option TimefoldRoutePlan)
    (workB : Nat) :
    List (String × Option Int) × List (String × Option Int) :=
  m.vehicles.foldl (utilStep m rp workB) ([], [])

/-- Sum of the values of a utilization map (NaN propagates). -/
def sumUtilValues (l : List (String × Option Int)) : Option ℚ :=
  l.foldl (fun acc p => jadd acc (p.2.map (fun z => (z : ℚ)))) (some 0)

/-- Average utilization of a map: value sum over `size || 1`, rounded. -/
def avgUtil (l : List (String × Option Int)) : Option Int :=
  jsRoundO ((sumUtilValues l).map
    (fun s => s / (if l.length = 0 then 1 else (l.length : ℚ))))

/-- The KPI summary record.  JavaScript numbers that can be NaN at runtime
are `Option Int` (`none` = NaN); provably integral, never-NaN numbers are
`Nat`/`Int`. -/
structure KpiSummary where
  totalVisitsBaseline : Nat
  totalVisitsOptimized : Nat
  assignedVisitsBaseline : Nat
  assignedVisitsOptimized : Nat
  unassignedVisitsBaseline : Nat
  unassignedVisitsOptimized : Nat
  totalTravelTimeBaseline : Nat
  totalTravelTimeOptimized : Nat
  totalServiceTimeBaseline : Nat
  totalServiceTimeOptimized : Nat
  totalWaitTimeBaseline : Nat
  totalWaitTimeOptimized : Option Int
  totalWorkTimeBaseline : Nat
  totalWorkTimeOptimized : Option Int
  totalCostBaseline : Int
  totalCostOptimized : Option Int
  utilizationByResourceBaseline : List (String × Option Int)
  utilizationByResourceOptimized : List (String × Option Int)
  avgUtilizationBaseline : Option Int
  avgUtilizationOptimized : Option Int
deriving Repr, DecidableEq

/-- `computeKpis(modelInput, routePlan, baselineSchedule, optimizedSchedule)`.
The last two arguments are never read by the source body; they are kept for
signature fidelity. -/
def computeKpis (m : TimefoldModelInput) (routePlan : Option TimefoldRoutePlan)
    (_baselineSchedule : SchedulerData) (_optimizedSchedule : Option SchedulerData) :
    KpiSummary :=
  let totalVisitsBaseline := m.visits.length
  let assignedVisitsBaseline := totalVisitsBaseline
  let baselineTravelTime := assignedVisitsBaseline * 15
  let baselineServiceTime := baselineServiceTimeOf m
  let baselineWaitTime := assignedVisitsBaseline * 5
  let assignedVisitsOptimized :=
    match routePlan with
    | some rp =>
      let fromRoutes := match rp.routes with
        | some routes => kpiAssigned routes
        | none => 0
      match rp.metrics with
      | some mt => match mt.assignedVisits with
        | some n => n
        | none => fromRoutes
      | none => fromRoutes
    | none => assignedVisitsBaseline
  let unassignedVisitsOptimized :=
    match routePlan with
    | some rp =>
      let fromList := match rp.unassignedVisits with
        | some l => l.length
        | none => 0
      match rp.metrics with
      | some mt => match mt.unassignedVisits with
        | some n => n
        | none => fromList
      | none => fromList
    | none => 0
  let optimizedTravelTime :=
    match routePlan with
    | some rp =>
      let fromRoutes := match rp.routes with
        | some routes => routeTravelFold 0 routes
        | none => 0
      match rp.metrics with
      | some mt =>
        if durTruthy mt.totalTravelTime then parseDurationToMinutes mt.totalTravelTime
        else fromRoutes
      | none => fromRoutes
    | none => baselineTravelTime
  let optimizedServiceTime :=
    match routePlan with
    | some rp =>
      let fromRoutes := match rp.routes with
        | some routes => kpiServiceOpt m routes
        | none => 0
      match rp.metrics with
      | some mt =>
        if durTruthy mt.totalServiceTime then parseDurationToMinutes mt.totalServiceTime
        else fromRoutes
      | none => fromRoutes
    | none => baselineServiceTime
  let optimizedWaitTime : Option ℚ :=
    match routePlan with
    | some rp =>
      match rp.routes with
      | some routes => kpiWaitOpt routes
      | none => some 0
    | none => some (baselineWaitTime : ℚ)
  let totalWorkTimeBaseline := baselineServiceTime + baselineTravelTime + baselineWaitTime
  let totalWorkTimeOptimized : Option ℚ :=
    jadd (some ((optimizedServiceTime + optimizedTravelTime : Nat) : ℚ)) optimizedWaitTime
  let totalCostBaseline : Int :=
    jsRound ((totalWorkTimeBaseline : ℚ) / 60 * 450)
  let totalCostOptimized : Option Int :=
    totalWorkTimeOptimized.map (fun w => jsRound (w / 60 * 450))
  let maps := utilMaps m routePlan totalWorkTimeBaseline
  { totalVisitsBaseline := totalVisitsBaseline
    totalVisitsOptimized := totalVisitsBaseline
    assignedVisitsBaseline := assignedVisitsBaseline
    assignedVisitsOptimized := assignedVisitsOptimized
    unassignedVisitsBaseline := 0
    unassignedVisitsOptimized := unassignedVisitsOptimized
    totalTravelTimeBaseline := baselineTravelTime
    totalTravelTimeOptimized := jsOrNat optimizedTravelTime baselineTravelTime
    totalServiceTimeBaseline := baselineServiceTime
    totalServiceTimeOptimized := jsOrNat optimizedServiceTime baselineServiceTime
    totalWaitTimeBaseline := baselineWaitTime
    totalWaitTimeOptimized := jsRoundO optimizedWaitTime
    totalWorkTimeBaseline := totalWorkTimeBaseline
    totalWorkTimeOptimized := jsRoundO totalWorkTimeOptimized
    totalCostBaseline := totalCostBaseline
    totalCostOptimized := totalCostOptimized
    utilizationByResourceBaseline := maps.1
    utilizationByResourceOptimized := maps.2
    avgUtilizationBaseline := avgUtil maps.1
    avgUtilizationOptimized := avgUtil maps.2 }

/-- Push an event onto its resource group (`Map` insertion order: existing
key keeps its position, new key appended). -/
def jsGroupPush (m : List (String × List SchedulerEvent)) (k : String)
    (e : SchedulerEvent) : List (String × List SchedulerEvent) :=
  match m with
  | [] => [(k, [e])]
  | (k0, l0) :: rest =>
    if k0 = k then (k0, l0 ++ [e]) :: rest else (k0, l0) :: jsGroupPush rest k e

/-- `eventsByResource`: group the baseline events by `resourceId`. -/
def groupByResource (events : List SchedulerEvent) :
    List (String × List SchedulerEvent) :=
  events.foldl (fun m e => jsGroupPush m e.resourceId e) []

/-- Key every event of a group by its parsed start date.  An unparseable
start date makes the simulator throw (at the `toISOString()` day-extraction
in the source); the model raises the error up front, which is observably the
same because a throw aborts the whole call. -/
def parseKeyed : List SchedulerEvent → Except String (List (Int × SchedulerEvent))
  | [] => .ok []
  | e :: rest =>
    match e.startDate.parse with
    | none => .error ("RangeError: invalid time value")
    | some t => do
      let tail ← parseKeyed rest
      .ok ((t, e) :: tail)

/-- Stable ascending insertion by start timestamp (JavaScript
`Array.prototype.sort` with an `a - b` comparator is stable). -/
def insertByStart (p : Int × SchedulerEvent) :
    List (Int × SchedulerEvent) → List (Int × SchedulerEvent)
  | [] => [p]
  | q :: rest => if q.1 < p.1 then q :: insertByStart p rest else p :: q :: rest

/-- Sort a keyed group by start timestamp (stable). -/
def sortByStart (l : List (Int × SchedulerEvent)) : List (Int × SchedulerEvent) :=
  l.foldr insertByStart []

/-- Push a keyed event onto its calendar-day group. -/
def jsGroupPushDay (m : List (Int × List (Int × SchedulerEvent))) (k : Int)
    (p : Int × SchedulerEvent) : List (Int × List (Int × SchedulerEvent)) :=
  match m with
  | [] => [(k, [p])]
  | (k0, l0) :: rest =>
    if k0 = k then (k0, l0 ++ [p]) :: rest else (k0, l0) :: jsGroupPushDay rest k p

/-- `eventsByDay`: group keyed events by UTC calendar day
(`toISOString().split("T")[0]`, i.e. the floor of the timestamp divided by
86 400 000 ms). -/
def groupByDay (l : List (Int × SchedulerEvent)) :
    List (Int × List (Int × SchedulerEvent)) :=
  l.foldl (fun m p => jsGroupPushDay m (Int.fdiv p.1 86400000) p) []

/-- `duration <= 0` is clamped to 30 minutes ("Ensure duration is positive
(at least 30 minutes)" in the source). -/
def clampDur (d : Int) : Int := if d ≤ 0 then 1800000 else d

/-- The per-day compression loop of the simulator: replay the day's events
from the running clock, preceding every event after the first (by `forEach`
index) with `Math.floor(15 min * 0.6) = 9 min = 540 000 ms` of compressed
travel, keeping each event's (clamped) original duration.  The
`newStart >= newEnd` skip branch advances the clock by a 30-minute recovery
step without emitting; an unparseable end date reaches `toISOString()` on an
invalid date and throws. -/
def compressDay : Int → Nat → List (Int × SchedulerEvent) →
    Except String (List SchedulerEvent)
  | _, _, [] => .ok []
  | currentTime, index, (startMs, e) :: rest =>
    match e.endDate.parse with
    | none => .error ("RangeError: invalid time value")
    | some endMs =>
      let duration := clampDur (endMs - startMs)
      let gap : Int := if index > 0 then 540000 else 0
      let newStart := currentTime + gap
      let newEnd := newStart + duration
      if newStart ≥ newEnd then
        compressDay (newStart + 1800000) (index + 1) rest
      else do
        let tail ← compressDay newEnd (index + 1) rest
        .ok ({ e with id := e.id ++ "-optimized"
                      startDate := .iso newStart
                      endDate := .iso newEnd } :: tail)

/-- Replay every day group of one resource, each starting at 08:00 of its
day.  (The source builds the anchor as `new Date(day + "T08:00:00")`, a
local-time parse; the model assumes a UTC runtime, which only shifts the
anchor, not any property claimed about the compression.) -/
def simulateDays : List (Int × List (Int × SchedulerEvent)) →
    Except String (List SchedulerEvent)
  | [] => .ok []
  | (day, devs) :: rest => do
    let out ← compressDay (day * 86400000 + 28800000) 0 devs
    let tail ← simulateDays rest
    .ok (out ++ tail)

/-- Simulate one resource group: key, sort, group by day, compress. -/
def simulateResource (group : List SchedulerEvent) :
    Except String (List SchedulerEvent) := do
  let keyed ← parseKeyed group
  let byDay := groupByDay (sortByStart keyed)
  simulateDays byDay

/-- All resource groups in insertion order. -/
def simulateGroups : List (String × List SchedulerEvent) →
    Except String (List SchedulerEvent)
  | [] => .ok []
  | (_, g) :: rest => do
    let out ← simulateResource g
    let tail ← simulateGroups rest
    .ok (out ++ tail)

/-- `simulateOptimizedSchedule(modelInput, baselineSchedule)`.  The model
input argument is never read by the source body. -/
def simulateOptimizedSchedule (_m : TimefoldModelInput) (baseline : SchedulerData) :
    Except String SchedulerData := do
  let evs ← simulateGroups (groupByResource baseline.events)
  .ok { resources := baseline.resources, events := evs }

/-- An event whose two date strings parse and are strictly ordered. -/
def EventOrdered (e : SchedulerEvent) : Prop :=
  ∃ s t : Int, e.startDate.parse = some s ∧ e.endDate.parse = some t ∧ s < t

/-- Concrete shift from 08:00Z to 16:00Z of the epoch day (timestamps in
milliseconds), used by concrete instances below. -/
def shift0816 : Shift :=
  { startTime := some (.iso 28800000), endTime := some (.iso 57600000) }

/-- Concrete one-shift vehicle builder for the concrete instances. -/
def mkVeh (i : String) : Vehicle := { id := i, shifts := [shift0816] }

/-- Concrete visit builder (unparseable duration, hence the 30-minute
default) for the concrete instances. -/
def mkVis (i n : String) : Visit :=
  { id := i, name := n, serviceDuration := .nomatch "" }

/-- Concrete input whose single shift is inverted (start 100 ms, end 50 ms). -/
def invertedShiftInput : TimefoldModelInput :=
  { vehicles := [{ id := "v1",
                   shifts := [{ startTime := some (.iso 100), endTime := some (.iso 50) }] }]
    visits := [] }

/-- Concrete model input: one vehicle, one visit `a`. -/
def oneVehOneVisInput : TimefoldModelInput :=
  { vehicles := [mkVeh "v1"], visits := [mkVis "a" "A"] }

/-- Concrete route plan whose one planned visit has inverted timestamps
(arrival 5000 ms, departure 1000 ms). -/
def invertedVisitPlan : TimefoldRoutePlan :=
  { routes := some [{ vehicleId := "v1",
                      visits := [{ id := some "a",
                                   arrivalTime := some (.iso 5000),
                                   departureTime := some (.iso 1000) }] }] }

/-- Concrete model input for the baseline stride counterexample: one
vehicle, first visit with a 60-minute duration. -/
def strideInput : TimefoldModelInput :=
  { vehicles := [mkVeh "v1"]
    visits := [{ id := "x", name := "X", serviceDuration := .pt 1 0 0 }, mkVis "y" "Y"] }

/-- Concrete route plan with one route, one planned visit, no travel time
and no metrics (running travel sum 0). -/
def zeroTravelPlan : TimefoldRoutePlan :=
  { routes := some [{ vehicleId := "v1", visits := [{ id := some "a" }] }] }

/-- Concrete route plan whose planned visit carries unparseable arrival and
start-of-service strings (both truthy). -/
def nanWaitPlan : TimefoldRoutePlan :=
  { routes := some [{ vehicleId := "v1",
                      visits := [{ id := some "a",
                                   arrivalTime := some (.garbage "x"),
                                   startServiceTime := some (.garbage "y") }] }] }

/-- Concrete zero-duration baseline event (start = end = epoch). -/
def zeroDurEvent : SchedulerEvent :=
  { id := "e1", resourceId := "r", startDate := .iso 0, endDate := .iso 0,
    name := "Z", eventType := "visit", status := "baseline" }

/-- Concrete model input for the unassigned-visit scenario: the model
defines visit `v9` named "Checkup". -/
def checkupInput : TimefoldModelInput :=
  { vehicles := [mkVeh "v1"]
    visits := [{ id := "v9", name := "Checkup", serviceDuration := .nomatch "" }] }

/-- Concrete route plan with no routes content and one unassigned reference
`{id: "v9"}` carrying no name. -/
def checkupPlan : TimefoldRoutePlan :=
  { routes := some [], unassignedVisits := some [{ id := "v9" }] }

theorem exceptBind_ok {α β : Type} (e : Except String α) (f : α → Except String β)
    (d : β) : (e >>= f) = .ok d ↔ ∃ a, e = .ok a ∧ f a = .ok d := by
  cases e with
  | error s => simp [Bind.bind, Except.bind]
  | ok a => simp [Bind.bind, Except.bind]

theorem jsOrNat_pos (a b : Nat) (hb : 0 < b) : 0 < jsOrNat a b := by
  unfold jsOrNat
  split
  · exact hb
  · omega

theorem jsOrNat_self (a : Nat) : jsOrNat a a = a := by
  unfold jsOrNat
  split <;> rfl

theorem natCeil_div_sixty (s : Nat) : ⌈(s : ℚ) / 60⌉₊ = (s + 59) / 60 := by
  rcases Nat.eq_zero_or_pos ((s + 59) / 60) with h0 | hpos
  · have hs : s = 0 := by omega
    subst hs
    simp [h0]
  · apply le_antisymm
    · rw [Nat.ceil_le]
      have hle : s ≤ 60 * ((s + 59) / 60) := by omega
      rw [div_le_iff₀ (by norm_num : (0 : ℚ) < 60)]
      calc (s : ℚ) ≤ ((60 * ((s + 59) / 60) : Nat) : ℚ) := by exact_mod_cast hle
        _ = ((s + 59) / 60 : Nat) * 60 := by push_cast; ring
    · have hlt : 60 * ((s + 59) / 60 - 1) < s := by omega
      have h1 : ((s + 59) / 60 - 1) < ⌈(s : ℚ) / 60⌉₊ := by
        rw [Nat.lt_ceil]
        rw [lt_div_iff₀ (by norm_num : (0 : ℚ) < 60)]
        calc (((s + 59) / 60 - 1 : Nat) : ℚ) * 60
            = ((60 * ((s + 59) / 60 - 1) : Nat) : ℚ) := by push_cast; ring
          _ < s := by exact_mod_cast hlt
      omega

/-- C8 (confirmed).  `parseDurationToMinutes` maps every string of the form
`PT{h}H{m}M{s}S` — represented in the embedding as `DurStr.pt h m s`, which
covers any casing, since the source regex carries the `i` flag, and any
surrounding/trailing unsupported text, since the regex is unanchored — to
`h*60 + m + ceil(s/60)` minutes; it returns 0 for `undefined` and 0 for a
string with no parseable duration such as `"garbage"`.  The Lean function is
total, reflecting that the source never throws. -/
theorem C8_parseDurationToMinutes_spec :
    (∀ h m s : Nat,
      parseDurationToMinutes (some (.pt h m s)) = h * 60 + m + ⌈(s : ℚ) / 60⌉₊)
    ∧ parseDurationToMinutes none = 0
    ∧ parseDurationToMinutes (some (.nomatch "garbage")) = 0 := by
  refine ⟨fun h m s => ?_, rfl, rfl⟩
  rw [natCeil_div_sixty]
  rfl

/-- C2 (code_bug).  A `ModelInput` with a vehicle whose `shifts` list is
empty makes `mapInputToBaselineSchedule` throw a TypeError: the resource
projection reads `vehicle.shifts[0]` (which is `undefined`) and immediately
dereferences it inside `getShiftStartTime` — despite the function guarding
the same access with `if (!shift) return` in its visit loop, and despite the
stated design that malformed per-item data degrades without throwing. -/
theorem C2_empty_shifts_throws :
    mapInputToBaselineSchedule { vehicles := [{ id := "veh1", shifts := [] }], visits := [] }
      = .error ("TypeError: cannot read startTime of undefined") := rfl

theorem baselineVisitEvent_ordered (vehicles : List Vehicle) (i : Nat) (visit : Visit)
    (ev : SchedulerEvent)
    (h : baselineVisitEvent vehicles i visit = .ok (some ev)) : EventOrdered ev := by
  unfold baselineVisitEvent at h
  split at h
  · exact Except.noConfusion h
  · dsimp only [] at h
    split at h
    · exact Option.noConfusion (Except.ok.inj h)
    · split at h
      · exact Option.noConfusion (Except.ok.inj h)
      · split at h
        · exact Option.noConfusion (Except.ok.inj h)
        · split at h
          · exact Option.noConfusion (Except.ok.inj h)
          · split at h
            · exact Option.noConfusion (Except.ok.inj h)
            · rename_i hlt
              have hev := Option.some.inj (Except.ok.inj h)
              subst hev
              refine ⟨_, _, rfl, rfl, ?_⟩
              omega

theorem baselineVisitEvents_ordered (vehicles : List Vehicle) :
    ∀ (visits : List Visit) (i : Nat) (out : List SchedulerEvent),
      baselineVisitEvents vehicles i visits = .ok out →
      ∀ e ∈ out, EventOrdered e := by
  intro visits
  induction visits with
  | nil =>
    intro i out h e he
    simp only [baselineVisitEvents] at h
    cases h
    simp at he
  | cons v rest ih =>
    intro i out h e he
    simp only [baselineVisitEvents] at h
    rw [exceptBind_ok] at h
    obtain ⟨ev?, h1, h2⟩ := h
    rw [exceptBind_ok] at h2
    obtain ⟨tail, h3, h4⟩ := h2
    cases h4
    rcases List.mem_append.mp he with hmem | hmem
    · cases ev? with
      | none => simp [Option.toList] at hmem
      | some ev0 =>
        simp [Option.toList] at hmem
        subst hmem
        exact baselineVisitEvent_ordered vehicles i v e h1
    · exact ih (i + 1) tail h3 e hmem

theorem shiftBreakEvents_break (vid : String) :
    ∀ (i : Nat) (shifts : List Shift) (e : SchedulerEvent),
      e ∈ shiftBreakEvents vid i shifts → e.eventType = "break" := by
  intro i shifts
  induction shifts generalizing i with
  | nil => intro e he; simp [shiftBreakEvents] at he
  | cons sh rest ih =>
    intro e he
    simp only [shiftBreakEvents] at he
    rcases List.mem_append.mp he with hmem | hmem
    · split at hmem
      · split at hmem
        · simp at hmem
          subst hmem
          rfl
        · simp at hmem
      · simp at hmem
    · exact ih (i + 1) e hmem

theorem allBreakEvents_break :
    ∀ (vehicles : List Vehicle) (e : SchedulerEvent),
      e ∈ allBreakEvents vehicles → e.eventType = "break" := by
  intro vehicles
  induction vehicles with
  | nil => intro e he; simp [allBreakEvents] at he
  | cons v rest ih =>
    intro e he
    simp only [allBreakEvents] at he
    rcases List.mem_append.mp he with hmem | hmem
    · exact shiftBreakEvents_break v.id 0 v.shifts e hmem
    · exact ih e hmem

theorem mapInputToBaselineSchedule_ok (m : TimefoldModelInput) (d : SchedulerData)
    (h : mapInputToBaselineSchedule m = .ok d) :
    ∃ res ve, mapVehicleResources m.vehicles = .ok res
      ∧ baselineVisitEvents m.vehicles 0 m.visits = .ok ve
      ∧ d = { resources := res, events := allBreakEvents m.vehicles ++ ve } := by
  simp only [mapInputToBaselineSchedule] at h
  rw [exceptBind_ok] at h
  obtain ⟨res, h1, h2⟩ := h
  rw [exceptBind_ok] at h2
  obtain ⟨ve, h3, h4⟩ := h2
  cases h4
  exact ⟨res, ve, h1, h3, rfl⟩

theorem finishVisit_ordered (vehicleId visitId : String) (vd : Option Visit)
    (pv : PlannedVisit) (i : Nat) (dur : Nat) (hdur : 0 < dur) (ct ct' : Option Int)
    (sd ed : DStr) (ev : SchedulerEvent)
    (h : finishVisit vehicleId visitId vd pv i dur ct sd ed = .ok (ct', some ev)) :
    EventOrdered ev := by
  unfold finishVisit at h
  split at h
  · rename_i st et hst het
    split at h
    · have hev := Option.some.inj ((Prod.mk.injEq _ _ _ _).mp (Except.ok.inj h)).2
      subst hev
      refine ⟨st, _, hst, rfl, ?_⟩
      omega
    · rename_i hlt
      have hev := Option.some.inj ((Prod.mk.injEq _ _ _ _).mp (Except.ok.inj h)).2
      subst hev
      exact ⟨st, et, hst, het, by omega⟩
  · simp at h

theorem processPlannedVisit_ordered (vm : List (String × Visit)) (vid : String)
    (ct : Option Int) (i : Nat) (pv : PlannedVisit) (ct' : Option Int)
    (ev : SchedulerEvent)
    (h : processPlannedVisit vm vid ct i pv = .ok (ct', some ev)) :
    EventOrdered ev := by
  have hdur : 0 < jsOrNat
      (parseDurationToMinutes ((jsMapGet vm (resolvedVisitId pv i)).map Visit.serviceDuration)) 30 :=
    jsOrNat_pos _ _ (by norm_num)
  unfold processPlannedVisit at h
  dsimp only [] at h
  split at h
  · exact finishVisit_ordered _ _ _ _ _ _ hdur _ _ _ _ _ h
  · split at h
    · exact Except.noConfusion h
    · rename_i c hc
      have hev := Option.some.inj ((Prod.mk.injEq _ _ _ _).mp (Except.ok.inj h)).2
      subst hev
      refine ⟨c, _, rfl, rfl, ?_⟩
      omega

theorem processRouteVisits_ordered (vm : List (String × Visit)) (vid : String) :
    ∀ (visits : List PlannedVisit) (i : Nat) (ct : Option Int) out,
      processRouteVisits vm vid i ct visits = .ok out →
      ∀ e ∈ out, EventOrdered e := by
  intro visits
  induction visits with
  | nil =>
    intro i ct out h e he
    simp only [processRouteVisits] at h
    cases h
    simp at he
  | cons pv rest ih =>
    intro i ct out h e he
    simp only [processRouteVisits] at h
    rw [exceptBind_ok] at h
    obtain ⟨⟨ct1, ev?⟩, h1, h2⟩ := h
    rw [exceptBind_ok] at h2
    obtain ⟨tail, h3, h4⟩ := h2
    cases h4
    rcases List.mem_append.mp he with hmem | hmem
    · cases ev? with
      | none => simp [Option.toList] at hmem
      | some ev0 =>
        simp [Option.toList] at hmem
        subst hmem
        exact processPlannedVisit_ordered vm vid ct i pv ct1 e h1
    · exact ih (i + 1) ct1 tail h3 e hmem

theorem processRoutes_ordered (vm : List (String × Visit)) (base : DStr) :
    ∀ (routes : List VehicleRoute) out,
      processRoutes vm base routes = .ok out →
      ∀ e ∈ out, EventOrdered e := by
  intro routes
  induction routes with
  | nil =>
    intro out h e he
    simp only [processRoutes] at h
    cases h
    simp at he
  | cons r rest ih =>
    intro out h e he
    simp only [processRoutes] at h
    rw [exceptBind_ok] at h
    obtain ⟨evs, h1, h2⟩ := h
    rw [exceptBind_ok] at h2
    obtain ⟨tail, h3, h4⟩ := h2
    cases h4
    rcases List.mem_append.mp he with hmem | hmem
    · exact processRouteVisits_ordered vm r.vehicleId r.visits 0 base.parse evs h1 e hmem
    · exact ih tail h3 e hmem

theorem unassignedEvent_ok_some (vm : List (String × Visit)) (bms : Int)
    (i : Nat) (ref : VisitRef) :
    unassignedEvent vm (some bms) i ref = .ok (some
      { id := "unassigned-" ++ ref.id
        resourceId := "unassigned"
        startDate := .iso (bms + (i * 45 * 60000 : Nat))
        endDate := .iso (bms + (i * 45 * 60000 : Nat)
          + (jsOrNat (parseDurationToMinutes ((jsMapGet vm ref.id).map Visit.serviceDuration)) 30 * 60000 : Nat))
        name := jsOrStr3 ref.name ((jsMapGet vm ref.id).map Visit.name) ref.id
        eventType := "visit"
        status := "optimized"
        visitId := some ref.id
        address := getVisitAddress ((jsMapGet vm ref.id).bind Visit.location) }) := by
  have hdur : 0 < jsOrNat (parseDurationToMinutes ((jsMapGet vm ref.id).map Visit.serviceDuration)) 30 :=
    jsOrNat_pos _ _ (by norm_num)
  unfold unassignedEvent
  dsimp only []
  rw [if_neg (by omega)]

theorem unassignedEvents_ordered (vm : List (String × Visit)) (baseMs : Option Int) :
    ∀ (refs : List VisitRef) (i : Nat) out,
      unassignedEvents vm baseMs i refs = .ok out →
      ∀ e ∈ out, EventOrdered e := by
  intro refs
  induction refs with
  | nil =>
    intro i out h e he
    simp only [unassignedEvents] at h
    cases h
    simp at he
  | cons ref rest ih =>
    intro i out h e he
    simp only [unassignedEvents] at h
    rw [exceptBind_ok] at h
    obtain ⟨ev?, h1, h2⟩ := h
    rw [exceptBind_ok] at h2
    obtain ⟨tail, h3, h4⟩ := h2
    cases h4
    rcases List.mem_append.mp he with hmem | hmem
    · cases baseMs with
      | none => exact Except.noConfusion h1
      | some bms =>
        rw [unassignedEvent_ok_some] at h1
        have hev := Except.ok.inj h1
        subst hev
        simp [Option.toList] at hmem
        subst hmem
        have hdur : 0 < jsOrNat (parseDurationToMinutes ((jsMapGet vm ref.id).map Visit.serviceDuration)) 30 :=
          jsOrNat_pos _ _ (by norm_num)
        refine ⟨_, _, rfl, rfl, ?_⟩
        omega
    · exact ih (i + 1) tail h3 e hmem

theorem mapRoutePlanToOptimizedSchedule_ordered (now : Int)
    (rp : TimefoldRoutePlan) (m : TimefoldModelInput) (d : SchedulerData)
    (h : mapRoutePlanToOptimizedSchedule now rp m = .ok d) :
    ∀ e ∈ d.events, EventOrdered e := by
  intro e he
  unfold mapRoutePlanToOptimizedSchedule at h
  rw [exceptBind_ok] at h
  obtain ⟨res, h1, h2⟩ := h
  rw [exceptBind_ok] at h2
  obtain ⟨revs, hrevs, h3⟩ := h2
  have hrevs_ordered : ∀ e ∈ revs, EventOrdered e := by
    unfold routeEventsOf at hrevs
    split at hrevs
    · rename_i routes hroutes
      rw [exceptBind_ok] at hrevs
      obtain ⟨base, hb1, hb2⟩ := hrevs
      exact processRoutes_ordered _ base routes revs hb2
    · cases hrevs
      intro e he
      simp at he
  unfold attachUnassigned at h3
  split at h3
  · rename_i refs hrefs
    split at h3
    · rw [exceptBind_ok] at h3
      obtain ⟨base2, hc1, hc2⟩ := h3
      rw [exceptBind_ok] at hc2
      obtain ⟨uevs, hc3, hc4⟩ := hc2
      cases hc4
      rcases List.mem_append.mp he with hmem | hmem
      · exact hrevs_ordered e hmem
      · exact unassignedEvents_ordered _ _ refs 0 uevs hc3 e hmem
    · cases h3
      exact hrevs_ordered e he
  · cases h3
    exact hrevs_ordered e he

/-- C1 counterexample.  On a model input whose only shift is inverted
(start 100 ms, end 50 ms) the baseline normalizer emits the break-kind
shift-availability event with `startDate` NOT before `endDate`: the break
branch copies the raw strings with no ordering or parse validation, so the
claimed invariant fails for break-kind events. -/
theorem C1_counterexample :
    mapInputToBaselineSchedule invertedShiftInput = .ok
      { resources := [{ id := "v1", name := "v1",
                        shiftStart := some (.iso 100), shiftEnd := some (.iso 50) }]
        events := [{ id := "shift-v1-0", resourceId := "v1",
                     startDate := .iso 100, endDate := .iso 50,
                     name := "Available", eventType := "break", status := "baseline" }] }
    ∧ ¬ EventOrdered { id := "shift-v1-0", resourceId := "v1",
                       startDate := .iso 100, endDate := .iso 50,
                       name := "Available", eventType := "break", status := "baseline" } := by
  constructor
  · rfl
  · rintro ⟨s, t, hs, ht, hlt⟩
    simp [DStr.parse] at hs ht
    omega

/-- C1 (corrected).  Every VISIT-kind event emitted by either normalizer
satisfies `startDate < endDate` strictly (baseline drops a bad visit, the
optimized path drops an unparseable one and heals — rather than drops — an
inverted one); break-kind shift-availability events, however, are emitted
whenever both bound strings are truthy, with no ordering or parse
validation at all (see the counterexample). -/
theorem C1_visit_events_ordered :
    (∀ (m : TimefoldModelInput) (d : SchedulerData),
        mapInputToBaselineSchedule m = .ok d →
        ∀ e ∈ d.events, e.eventType = "visit" → EventOrdered e)
    ∧ (∀ (now : Int) (rp : TimefoldRoutePlan) (m : TimefoldModelInput) (d : SchedulerData),
        mapRoutePlanToOptimizedSchedule now rp m = .ok d →
        ∀ e ∈ d.events, e.eventType = "visit" → EventOrdered e) := by
  constructor
  · intro m d h e he hv
    obtain ⟨res, ve, h1, h3, h4⟩ := mapInputToBaselineSchedule_ok m d h
    subst h4
    rcases List.mem_append.mp he with hmem | hmem
    · have hbreak := allBreakEvents_break m.vehicles e hmem
      exact absurd (hbreak.symm.trans hv) (by decide)
    · exact baselineVisitEvents_ordered m.vehicles m.visits 0 ve h3 e hmem
  · intro now rp m d h e he _
    exact mapRoutePlanToOptimizedSchedule_ordered now rp m d h e he

/-- Witness for C1: the baseline visit event of the concrete
one-vehicle/one-visit input is strictly ordered. -/
theorem C1_witness :
    EventOrdered { id := "baseline-a", resourceId := "v1",
                   startDate := .iso 28800000, endDate := .iso 30600000,
                   name := "A", eventType := "visit", status := "baseline",
                   visitId := some "a" } :=
  C1_visit_events_ordered.1 oneVehOneVisInput
    { resources := [{ id := "v1", name := "v1",
                      shiftStart := some (.iso 28800000), shiftEnd := some (.iso 57600000) }]
      events := [{ id := "shift-v1-0", resourceId := "v1",
                   startDate := .iso 28800000, endDate := .iso 57600000,
                   name := "Available", eventType := "break", status := "baseline" },
                 { id := "baseline-a", resourceId := "v1",
                   startDate := .iso 28800000, endDate := .iso 30600000,
                   name := "A", eventType := "visit", status := "baseline",
                   visitId := some "a" }] }
    (by rfl) _ (by decide) rfl

/-- C10 (confirmed).  Every visit-kind event emitted by
`mapRoutePlanToOptimizedSchedule` — routed or unassigned — has `endDate`
strictly after `startDate`: the `|| 30` default makes the service duration
at least 1 minute, an inverted or degenerate pair is recomputed as
`end = start + serviceDuration`, and visits whose resolved timestamps do
not parse are skipped. -/
theorem C10_optimized_events_ordered (now : Int) (rp : TimefoldRoutePlan)
    (m : TimefoldModelInput) (d : SchedulerData)
    (h : mapRoutePlanToOptimizedSchedule now rp m = .ok d) :
    ∀ e ∈ d.events, e.eventType = "visit" → EventOrdered e :=
  fun e he _ => mapRoutePlanToOptimizedSchedule_ordered now rp m d h e he

/-- Witness for C10: the healed event of the inverted-timestamps plan
(arrival 5000 ms, departure 1000 ms, healed end 5000 + 30 min) is strictly
ordered. -/
theorem C10_witness :
    EventOrdered { id := "opt-a-0", resourceId := "v1",
                   startDate := .iso 5000, endDate := .iso 1805000,
                   name := "A", eventType := "visit", status := "optimized",
                   visitId := some "a", travelTime := some 0 } :=
  C10_optimized_events_ordered 999 invertedVisitPlan oneVehOneVisInput
    { resources := [{ id := "v1", name := "v1",
                      shiftStart := some (.iso 28800000), shiftEnd := some (.iso 57600000) }]
      events := [{ id := "opt-a-0", resourceId := "v1",
                   startDate := .iso 5000, endDate := .iso 1805000,
                   name := "A", eventType := "visit", status := "optimized",
                   visitId := some "a", travelTime := some 0 }] }
    (by rfl) _ (by decide) rfl

/-- C3 counterexample.  One vehicle (shift start 08:00 = 28 800 000 ms), two
visits; the first visit has `serviceDuration = "PT1H"` (60 minutes).  The
claim says the second visit starts at shift start advanced by
(60 + 15) minutes = 33 300 000 ms; the code emits it at shift start plus the
FIXED stride 1 × (30 + 15) minutes = 31 500 000 ms, ignoring the first
visit's actual duration. -/
theorem C3_counterexample :
    mapInputToBaselineSchedule strideInput = .ok
      { resources := [{ id := "v1", name := "v1",
                        shiftStart := some (.iso 28800000), shiftEnd := some (.iso 57600000) }]
        events := [{ id := "shift-v1-0", resourceId := "v1",
                     startDate := .iso 28800000, endDate := .iso 57600000,
                     name := "Available", eventType := "break", status := "baseline" },
                   { id := "baseline-x", resourceId := "v1",
                     startDate := .iso 28800000, endDate := .iso 32400000,
                     name := "X", eventType := "visit", status := "baseline",
                     visitId := some "x" },
                   { id := "baseline-y", resourceId := "v1",
                     startDate := .iso 31500000, endDate := .iso 33300000,
                     name := "Y", eventType := "visit", status := "baseline",
                     visitId := some "y" }] }
    ∧ (31500000 : Int) ≠ 28800000 + (60 + 15) * 60000 := by
  constructor
  · rfl
  · norm_num

/-- C3 (corrected).  Baseline visit distribution: visit `i` goes to vehicle
`i % V` (round-robin by input order), and is placed at that vehicle's first
shift start advanced by a FIXED stride of `(i / V) * (30 + 15)` minutes —
the 30-minute default visit length plus the 15-minute travel allowance,
independent of the actual durations of the previously placed visits; the
event ends at its own start plus its own parsed duration (`|| 30`, i.e. the
default also applies to a parsed duration of zero).  The first conjunct
ties the per-visit loop to `mapInputToBaselineSchedule`. -/
theorem C3_round_robin_fixed_stride :
    (∀ (m : TimefoldModelInput) (d : SchedulerData),
        mapInputToBaselineSchedule m = .ok d →
        ∃ res ve, mapVehicleResources m.vehicles = .ok res
          ∧ baselineVisitEvents m.vehicles 0 m.visits = .ok ve
          ∧ d = { resources := res, events := allBreakEvents m.vehicles ++ ve })
    ∧ (∀ (v0 : Vehicle) (rest : List Vehicle) (i : Nat) (visit : Visit)
        (shift : Shift) (sd : DStr) (s0 : Int),
        ((v0 :: rest).getD (i % (v0 :: rest).length) v0).shifts.head? = some shift →
        getShiftStartTime shift = some sd → sd.parse = some s0 →
        baselineVisitEvent (v0 :: rest) i visit = .ok (some
          { id := "baseline-" ++ visit.id
            resourceId := ((v0 :: rest).getD (i % (v0 :: rest).length) v0).id
            startDate := .iso (s0 + ((i / (v0 :: rest).length) * (45 * 60000) : Nat))
            endDate := .iso (s0 + ((i / (v0 :: rest).length) * (45 * 60000) : Nat)
              + (jsOrNat (parseDurationToMinutes (some visit.serviceDuration)) 30 * 60000 : Nat))
            name := visit.name
            eventType := "visit"
            status := "baseline"
            visitId := some visit.id
            address := getVisitAddress visit.location })) := by
  constructor
  · exact mapInputToBaselineSchedule_ok
  · intro v0 rest i visit shift sd s0 hshift hstart hparse
    cases sd with
    | garbage s => simp [DStr.parse] at hparse
    | iso ms =>
      have hms : ms = s0 := by simpa [DStr.parse] using hparse
      subst hms
      have hdur : 0 < jsOrNat (parseDurationToMinutes (some visit.serviceDuration)) 30 :=
        jsOrNat_pos _ _ (by norm_num)
      unfold baselineVisitEvent
      dsimp only []
      rw [hshift]
      dsimp only []
      rw [hstart]
      dsimp only [DStr.truthy, DStr.parse]
      rw [if_neg (by simp)]
      rw [if_neg (by omega)]

/-- Witness for C3: scenario A — two vehicles, third visit (index 2) goes
back to vehicle `v1` and is placed one fixed stride (45 minutes) after the
08:00 shift start. -/
theorem C3_witness :
    baselineVisitEvent [mkVeh "v1", mkVeh "v2"] 2 (mkVis "c" "C") = .ok (some
      { id := "baseline-c", resourceId := "v1",
        startDate := .iso 31500000, endDate := .iso 33300000,
        name := "C", eventType := "visit", status := "baseline",
        visitId := some "c" }) :=
  C3_round_robin_fixed_stride.2 (mkVeh "v1") [mkVeh "v2"] 2 (mkVis "c" "C")
    shift0816 (.iso 28800000) 28800000 rfl rfl rfl

/-- C4 counterexample.  One visit, one route whose planned visit has no
`travelTimeFromPrevious` and whose plan has no metrics: the per-route
running sum is 0, so the claim demands `totalTravelTimeOptimized = 0`; the
code reports 15, because the output step applies
`optimizedTravelTime || baselineTravelTime` and 0 is falsy. -/
theorem C4_counterexample :
    (computeKpis oneVehOneVisInput (some zeroTravelPlan)
        { resources := [], events := [] } none).totalTravelTimeOptimized = 15
    ∧ routeTravelFold 0 [{ vehicleId := "v1", visits := [{ id := some "a" }] }] = 0
    ∧ (15 : Nat) ≠ 0 := by
  refine ⟨rfl, rfl, by norm_num⟩

/-- C4 (corrected).  For a route plan without a metrics field,
`totalTravelTimeOptimized` is the running sum over routes of each planned
visit's parsed `travelTimeFromPrevious`, where a route carrying a truthy
`totalTravelTime` aggregate REPLACES the whole running sum at its iteration
(last aggregate-carrying route wins) — EXCEPT that a zero result is
replaced by the baseline travel estimate (`visits × 15`) by the
`|| baselineTravelTime` output fallback, and a missing `routes` field
yields the baseline estimate the same way. -/
theorem C4_travel_time_fold (m : TimefoldModelInput) (rp : TimefoldRoutePlan)
    (bs : SchedulerData) (os : Option SchedulerData) (hmt : rp.metrics = none) :
    (computeKpis m (some rp) bs os).totalTravelTimeOptimized
      = jsOrNat (match rp.routes with
                 | some routes => routeTravelFold 0 routes
                 | none => 0) (m.visits.length * 15) := by
  unfold computeKpis
  dsimp only []
  rw [hmt]

/-- Witness for C4: the concrete zero-travel plan evaluates through the
theorem to the baseline fallback value 15. -/
theorem C4_witness :
    (computeKpis oneVehOneVisInput (some zeroTravelPlan)
        { resources := [], events := [] } none).totalTravelTimeOptimized = 15 :=
  C4_travel_time_fold oneVehOneVisInput zeroTravelPlan
    { resources := [], events := [] } none rfl

theorem clampDur_pos (d : Int) : 0 < clampDur d := by
  unfold clampDur
  split <;> omega

/-- C5 counterexample.  A baseline with one zero-duration event (start =
end = epoch): the claim says the event is dropped (with a 30-minute clock
advance); the code instead CLAMPS the duration to 30 minutes and emits the
event (placed at the 08:00 day anchor). -/
theorem C5_counterexample :
    simulateOptimizedSchedule { vehicles := [], visits := [] }
        { resources := [], events := [zeroDurEvent] }
      = .ok { resources := []
              events := [{ id := "e1-optimized", resourceId := "r",
                           startDate := .iso 28800000, endDate := .iso 30600000,
                           name := "Z", eventType := "visit", status := "baseline" }] }
    ∧ (30600000 - 28800000 : Int) = 30 * 60000 := by
  refine ⟨rfl, by norm_num⟩

/-- C5 (corrected).  The per-day compression loop of
`simulateOptimizedSchedule` (`compressDay`): on any day whose events it
processes successfully, it emits ONE output event per input event — an
input whose duration resolves to zero or negative is NOT dropped but
clamped to 30 minutes (the `newStart >= newEnd` drop-with-recovery branch
is unreachable, because the clamped duration is always positive) — each
output keeps its (clamped) original duration, and each event after the
first is preceded by exactly a 9-minute gap
(`Math.floor(15 min * 0.6) = 540 000 ms`). -/
theorem C5_compressDay_clamps_not_drops :
    ∀ (pairs : List (Int × SchedulerEvent)) (ct : Int) (i : Nat) (out : List SchedulerEvent),
      compressDay ct i pairs = .ok out →
      (out.map (fun e => (e.endDate.parse.getD 0) - (e.startDate.parse.getD 0))
         = pairs.map (fun p => clampDur ((p.2.endDate.parse.getD 0) - p.1)))
      ∧ (∀ e, out.head? = some e →
           e.startDate = .iso (ct + (if i > 0 then 540000 else 0)))
      ∧ List.Chain' (fun a b =>
           b.startDate.parse = some ((a.endDate.parse.getD 0) + 540000)) out := by
  intro pairs
  induction pairs with
  | nil =>
    intro ct i out h
    simp only [compressDay] at h
    cases h
    refine ⟨rfl, ?_, by simp⟩
    intro e he
    simp at he
  | cons p rest ih =>
    intro ct i out h
    obtain ⟨s, e⟩ := p
    simp only [compressDay] at h
    split at h
    · exact Except.noConfusion h
    · rename_i endMs hend
      rw [if_neg (by have := clampDur_pos (endMs - s); omega)] at h
      rw [exceptBind_ok] at h
      obtain ⟨tail, h1, h2⟩ := h
      cases h2
      obtain ⟨ihmap, ihhead, ihchain⟩ := ih _ _ tail h1
      refine ⟨?_, ?_, ?_⟩
      · simp only [List.map_cons, List.cons.injEq]
        refine ⟨?_, ihmap⟩
        rw [hend]
        simp only [DStr.parse, Option.getD_some]
        omega
      · intro ev hev
        simp at hev
        subst hev
        rfl
      · rw [List.chain'_cons']
        constructor
        · intro y hy
          have := ihhead y hy
          rw [this]
          simp only [DStr.parse, Option.getD_some]
          congr 1
          omega
        · exact ihchain

/-- Witness for C5: the zero-duration event, compressed at clock 0 and
index 0, is emitted with duration clamped to 30 minutes. -/
theorem C5_witness :
    (([{ id := "e1-optimized", resourceId := "r", startDate := DStr.iso 0,
         endDate := DStr.iso 1800000, name := "Z", eventType := "visit",
         status := "baseline" }] : List SchedulerEvent).map
        (fun e => (e.endDate.parse.getD 0) - (e.startDate.parse.getD 0))
      = ([((0 : Int), zeroDurEvent)].map (fun p => clampDur ((p.2.endDate.parse.getD 0) - p.1))))
    ∧ List.Chain' (fun a b => b.startDate.parse = some ((a.endDate.parse.getD 0) + 540000))
        ([{ id := "e1-optimized", resourceId := "r", startDate := DStr.iso 0,
            endDate := DStr.iso 1800000, name := "Z", eventType := "visit",
            status := "baseline" }] : List SchedulerEvent) :=
  ⟨(C5_compressDay_clamps_not_drops [((0 : Int), zeroDurEvent)] 0 0 _ rfl).1,
   (C5_compressDay_clamps_not_drops [((0 : Int), zeroDurEvent)] 0 0 _ rfl).2.2⟩

theorem jsRound_natCast (n : Nat) : jsRound (n : ℚ) = n := by
  unfold jsRound
  have h : ((n : ℚ)) = ((n : Int) : ℚ) := by norm_cast
  rw [h, Int.floor_int_add]
  norm_num

theorem jsRoundO_natCast (n : Nat) : jsRoundO (some (n : ℚ)) = some ((n : Int)) := by
  simp [jsRoundO]
  exact jsRound_natCast n

theorem jadd_natCast (a b : Nat) :
    jadd (some (a : ℚ)) (some (b : ℚ)) = some ((a + b : Nat) : ℚ) := by
  simp [jadd]

theorem utilStep_none_mirror (m : TimefoldModelInput) (w : Nat)
    (maps : List (String × Option Int) × List (String × Option Int))
    (hm : maps.1 = maps.2) (v : Vehicle) :
    (utilStep m none w maps v).1 = (utilStep m none w maps v).2 := by
  unfold utilStep
  split
  · exact hm
  · dsimp only []
    split
    · exact hm
    · split
      · split
        · exact hm
        · rw [hm]
          rfl
      · exact hm

theorem utilFold_none_mirror (m : TimefoldModelInput) (w : Nat) :
    ∀ (vehicles : List Vehicle)
      (maps : List (String × Option Int) × List (String × Option Int)),
      maps.1 = maps.2 →
      (vehicles.foldl (utilStep m none w) maps).1
        = (vehicles.foldl (utilStep m none w) maps).2 := by
  intro vehicles
  induction vehicles with
  | nil => intro maps hm; exact hm
  | cons v rest ih =>
    intro maps hm
    simp only [List.foldl_cons]
    apply ih
    exact utilStep_none_mirror m w maps hm v

theorem utilMaps_none_mirror (m : TimefoldModelInput) (w : Nat) :
    (utilMaps m none w).1 = (utilMaps m none w).2 :=
  utilFold_none_mirror m w m.vehicles ([], []) rfl

/-- C6 (confirmed).  With `routePlan = null` every optimized-side metric of
`computeKpis` equals its baseline-side counterpart: visit counts
(total/assigned/unassigned), travel, service, wait, work time, cost, the
per-resource utilization map, and the average utilization.  (Baseline-side
numbers can never be NaN, so they are plain `Nat`/`Int` in the embedding;
the optimized-side NaN-able fields are `Option` and mirror them under
`some`.) -/
theorem C6_null_plan_mirrors_baseline (m : TimefoldModelInput)
    (bs : SchedulerData) (os : Option SchedulerData) :
    ((computeKpis m none bs os).totalVisitsOptimized
        = (computeKpis m none bs os).totalVisitsBaseline)
    ∧ ((computeKpis m none bs os).assignedVisitsOptimized
        = (computeKpis m none bs os).assignedVisitsBaseline)
    ∧ ((computeKpis m none bs os).unassignedVisitsOptimized
        = (computeKpis m none bs os).unassignedVisitsBaseline)
    ∧ ((computeKpis m none bs os).totalTravelTimeOptimized
        = (computeKpis m none bs os).totalTravelTimeBaseline)
    ∧ ((computeKpis m none bs os).totalServiceTimeOptimized
        = (computeKpis m none bs os).totalServiceTimeBaseline)
    ∧ ((computeKpis m none bs os).totalWaitTimeOptimized
        = some ((computeKpis m none bs os).totalWaitTimeBaseline : Int))
    ∧ ((computeKpis m none bs os).totalWorkTimeOptimized
        = some ((computeKpis m none bs os).totalWorkTimeBaseline : Int))
    ∧ ((computeKpis m none bs os).totalCostOptimized
        = some ((computeKpis m none bs os).totalCostBaseline))
    ∧ ((computeKpis m none bs os).utilizationByResourceOptimized
        = (computeKpis m none bs os).utilizationByResourceBaseline)
    ∧ ((computeKpis m none bs os).avgUtilizationOptimized
        = (computeKpis m none bs os).avgUtilizationBaseline) := by
  unfold computeKpis
  dsimp only []
  refine ⟨rfl, rfl, rfl, jsOrNat_self _, jsOrNat_self _, ?_, ?_, ?_, ?_, ?_⟩
  · exact jsRoundO_natCast _
  · rw [jadd_natCast]
    exact jsRoundO_natCast _
  · rw [jadd_natCast]
    rfl
  · exact (utilMaps_none_mirror m _).symm
  · exact congrArg avgUtil (utilMaps_none_mirror m _).symm

theorem jsRound_bounds (q : ℚ) (h0 : 0 ≤ q) (h100 : q ≤ 100) :
    0 ≤ jsRound q ∧ jsRound q ≤ 100 := by
  unfold jsRound
  constructor
  · apply Int.floor_nonneg.mpr
    linarith
  · have : ⌊q + 1 / 2⌋ < 101 := by
      rw [Int.floor_lt]
      push_cast
      linarith
    omega

theorem waitOf_nonneg (pv : PlannedVisit) (x : ℚ) (h : waitOf pv = some x) : 0 ≤ x := by
  unfold waitOf at h
  split at h
  · split at h
    · rename_i a s ha hs
      have := Option.some.inj h
      subst this
      exact le_max_left 0 _
    · exact Option.noConfusion h
  · have := Option.some.inj h
    subst this
    exact le_refl 0

theorem workFold_nonneg (m : TimefoldModelInput) :
    ∀ (visits : List PlannedVisit) (a : ℚ), 0 ≤ a →
      (∀ pv ∈ visits, waitOf pv ≠ none) →
      ∃ wt, visits.foldl (vehicleWorkStep m) (some a) = some wt ∧ 0 ≤ wt := by
  intro visits
  induction visits with
  | nil => intro a ha _; exact ⟨a, rfl, ha⟩
  | cons pv rest ih =>
    intro a ha hw
    have hpv : waitOf pv ≠ none := hw pv (List.mem_cons_self pv rest)
    obtain ⟨x, hx⟩ : ∃ x, waitOf pv = some x := by
      cases hwo : waitOf pv with
      | none => exact absurd hwo hpv
      | some x => exact ⟨x, rfl⟩
    have hxnn := waitOf_nonneg pv x hx
    simp only [List.foldl_cons]
    have hstep : vehicleWorkStep m (some a) pv
        = some (a + ((jsOrNat (parseDurationToMinutes ((findVisitByRef m pv.visitId).map Visit.serviceDuration)) 30
            + parseDurationToMinutes pv.travelTimeFromPrevious : Nat) : ℚ) + x) := by
      unfold vehicleWorkStep
      rw [hx]
      simp [jadd]
    rw [hstep]
    apply ih
    · have : (0:ℚ) ≤ ((jsOrNat (parseDurationToMinutes ((findVisitByRef m pv.visitId).map Visit.serviceDuration)) 30
            + parseDurationToMinutes pv.travelTimeFromPrevious : Nat) : ℚ) := Nat.cast_nonneg _
      linarith
    · intro q hq
      exact hw q (List.mem_cons_of_mem pv hq)

theorem vehicleWorkTime_nonneg (m : TimefoldModelInput) (route : VehicleRoute)
    (H : ∀ pv ∈ route.visits, waitOf pv ≠ none) :
    ∃ wt, vehicleWorkTime m route = some wt ∧ 0 ≤ wt :=
  workFold_nonneg m route.visits 0 (le_refl 0) H

theorem jsMapSet_mem {α : Type} :
    ∀ (l : List (String × α)) (k : String) (v : α) (p : String × α),
      p ∈ jsMapSet l k v → p ∈ l ∨ p = (k, v) := by
  intro l
  induction l with
  | nil =>
    intro k v p hp
    simp [jsMapSet] at hp
    exact Or.inr hp
  | cons q rest ih =>
    intro k v p hp
    simp only [jsMapSet] at hp
    split at hp
    · rename_i hk
      rcases List.mem_cons.mp hp with h1 | h1
      · right
        rw [h1, hk]
      · left
        exact List.mem_cons_of_mem q h1
    · rcases List.mem_cons.mp hp with h1 | h1
      · left
        rw [h1]
        exact List.mem_cons_self q rest
      · rcases ih k v p h1 with h2 | h2
        · left
          exact List.mem_cons_of_mem q h2
        · right
          exact h2

theorem utilStep_bounds (m : TimefoldModelInput) (rp : Option TimefoldRoutePlan)
    (w : Nat) (maps : List (String × Option Int) × List (String × Option Int))
    (v : Vehicle)
    (H : ∀ routes, rp.bind TimefoldRoutePlan.routes = some routes →
         ∀ r ∈ routes, ∀ pv ∈ r.visits, waitOf pv ≠ none)
    (h1 : ∀ p ∈ maps.1, ∃ z, p.2 = some z ∧ 0 ≤ z ∧ z ≤ 100)
    (h2 : ∀ p ∈ maps.2, ∃ z, p.2 = some z ∧ 0 ≤ z ∧ z ≤ 100) :
    (∀ p ∈ (utilStep m rp w maps v).1, ∃ z, p.2 = some z ∧ 0 ≤ z ∧ z ≤ 100)
    ∧ (∀ p ∈ (utilStep m rp w maps v).2, ∃ z, p.2 = some z ∧ 0 ≤ z ∧ z ≤ 100) := by
  unfold utilStep
  split
  · exact ⟨h1, h2⟩
  · dsimp only []
    split
    · exact ⟨h1, h2⟩
    · split
      · rename_i st et hst het
        split
        · exact ⟨h1, h2⟩
        · rename_i hdpos
          have hd : (0 : ℚ) < ((et - st : Int) : ℚ) / 60000 := not_le.mp hdpos
          have hbu0 : (0 : ℚ) ≤ min 100 ((w : ℚ) / m.vehicles.length
              / (((et - st : Int) : ℚ) / 60000) * 100) :=
            le_min (by norm_num)
              (mul_nonneg (div_nonneg (div_nonneg (Nat.cast_nonneg w) (Nat.cast_nonneg _)) hd.le)
                (by norm_num))
          have hbu100 : min 100 ((w : ℚ) / m.vehicles.length
              / (((et - st : Int) : ℚ) / 60000) * 100) ≤ 100 := min_le_left _ _
          obtain ⟨hjr0, hjr100⟩ := jsRound_bounds _ hbu0 hbu100
          constructor
          · intro p hp
            rcases jsMapSet_mem _ _ _ p hp with hin | heq
            · exact h1 p hin
            · rw [heq]
              exact ⟨_, rfl, hjr0, hjr100⟩
          · intro p hp
            rcases hrb : rp.bind TimefoldRoutePlan.routes with _ | routes
            all_goals rw [hrb] at hp
            · dsimp only [] at hp
              rcases jsMapSet_mem _ _ _ p hp with hin | heq
              · exact h2 p hin
              · rw [heq]
                exact ⟨_, rfl, hjr0, hjr100⟩
            · dsimp only [] at hp
              rcases hfind : List.find? (fun r => decide (r.vehicleId = v.id)) routes with _ | route
              all_goals rw [hfind] at hp
              · dsimp only [] at hp
                rcases jsMapSet_mem _ _ _ p hp with hin | heq
                · exact h2 p hin
                · rw [heq]
                  exact ⟨0, rfl, by norm_num, by norm_num⟩
              · dsimp only [] at hp
                have hroute := List.mem_of_find?_eq_some hfind
                have hwaits := H routes hrb route hroute
                obtain ⟨wt, hwt, hwtnn⟩ := vehicleWorkTime_nonneg m route hwaits
                rw [hwt] at hp
                rcases jsMapSet_mem _ _ _ p hp with hin | heq
                · exact h2 p hin
                · rw [heq]
                  have hou0 : (0 : ℚ) ≤ min 100 (wt / (((et - st : Int) : ℚ) / 60000) * 100) :=
                    le_min (by norm_num) (mul_nonneg (div_nonneg hwtnn hd.le) (by norm_num))
                  have hou100 : min 100 (wt / (((et - st : Int) : ℚ) / 60000) * 100) ≤ 100 :=
                    min_le_left _ _
                  obtain ⟨ho0, ho100⟩ := jsRound_bounds _ hou0 hou100
                  exact ⟨_, rfl, ho0, ho100⟩
      · exact ⟨h1, h2⟩

theorem avgUtil_nil : avgUtil [] = some 0 := by
  unfold avgUtil sumUtilValues jsRoundO jsRound
  norm_num

theorem utilFold_bounds (m : TimefoldModelInput) (rp : Option TimefoldRoutePlan)
    (w : Nat)
    (H : ∀ routes, rp.bind TimefoldRoutePlan.routes = some routes →
         ∀ r ∈ routes, ∀ pv ∈ r.visits, waitOf pv ≠ none) :
    ∀ (vehicles : List Vehicle)
      (maps : List (String × Option Int) × List (String × Option Int)),
      (∀ p ∈ maps.1, ∃ z, p.2 = some z ∧ 0 ≤ z ∧ z ≤ 100) →
      (∀ p ∈ maps.2, ∃ z, p.2 = some z ∧ 0 ≤ z ∧ z ≤ 100) →
      (∀ p ∈ (vehicles.foldl (utilStep m rp w) maps).1, ∃ z, p.2 = some z ∧ 0 ≤ z ∧ z ≤ 100)
      ∧ (∀ p ∈ (vehicles.foldl (utilStep m rp w) maps).2, ∃ z, p.2 = some z ∧ 0 ≤ z ∧ z ≤ 100) := by
  intro vehicles
  induction vehicles with
  | nil => intro maps h1 h2; exact ⟨h1, h2⟩
  | cons v rest ih =>
    intro maps h1 h2
    simp only [List.foldl_cons]
    obtain ⟨h1s, h2s⟩ := utilStep_bounds m rp w maps v H h1 h2
    exact ih _ h1s h2s


/-- C7 counterexample.  A planned visit with truthy but unparseable
`arrivalTime`/`startServiceTime` strings: `Math.max(0, NaN)` is NaN, the
vehicle's work time becomes NaN and the optimized utilization map stores
NaN (`none` in the embedding) — not a value in `[0, 100]`. -/
theorem C7_counterexample :
    (computeKpis oneVehOneVisInput (some nanWaitPlan)
        { resources := [], events := [] } none).utilizationByResourceOptimized
      = [("v1", (none : Option Int))]
    ∧ ¬ (∀ p ∈ (computeKpis oneVehOneVisInput (some nanWaitPlan)
          { resources := [], events := [] } none).utilizationByResourceOptimized,
          ∃ z : Int, p.2 = some z ∧ 0 ≤ z ∧ z ≤ 100) := by
  have heq : (computeKpis oneVehOneVisInput (some nanWaitPlan)
      { resources := [], events := [] } none).utilizationByResourceOptimized
      = [("v1", (none : Option Int))] := by
    unfold computeKpis
    dsimp only []
    unfold utilMaps
    simp only [oneVehOneVisInput, mkVeh, mkVis, shift0816, List.foldl_cons, List.foldl_nil]
    unfold utilStep
    dsimp only []
    norm_num [getShiftStartTime, getShiftEndTime, jsOrD, optTruthy, DStr.truthy, DStr.parse]
    norm_num [nanWaitPlan, List.find?, vehicleWorkTime, vehicleWorkStep, waitOf, jadd,
      optTruthy, DStr.truthy, DStr.parse, jsMapSet]
    rw [if_pos (by constructor <;> decide)]
  refine ⟨heq, fun hall => ?_⟩
  obtain ⟨z, hz, _⟩ := hall ("v1", none)
    (by rw [heq]; exact List.mem_singleton_self _)
  exact Option.noConfusion hz

/-- C7 (corrected).  Whenever every planned visit of the plan either lacks
one of `arrivalTime`/`startServiceTime` or carries parseable ones (so no
wait-time computation yields NaN), every value stored in both utilization
maps lies in `[0, 100]`; and an empty utilization map yields an average of
0 rather than a division-by-zero.  Without that hypothesis an unparseable
timestamp pair makes a stored value NaN (see the counterexample). -/
theorem C7_utilization_clamped (m : TimefoldModelInput)
    (rp : Option TimefoldRoutePlan)
    (bs : SchedulerData) (os : Option SchedulerData)
    (H : ∀ plan, rp = some plan → ∀ routes, plan.routes = some routes →
         ∀ r ∈ routes, ∀ pv ∈ r.visits, waitOf pv ≠ none) :
    (∀ p ∈ (computeKpis m rp bs os).utilizationByResourceBaseline,
        ∃ z, p.2 = some z ∧ 0 ≤ z ∧ z ≤ 100)
    ∧ (∀ p ∈ (computeKpis m rp bs os).utilizationByResourceOptimized,
        ∃ z, p.2 = some z ∧ 0 ≤ z ∧ z ≤ 100)
    ∧ ((computeKpis m rp bs os).utilizationByResourceBaseline = [] →
        (computeKpis m rp bs os).avgUtilizationBaseline = some 0)
    ∧ ((computeKpis m rp bs os).utilizationByResourceOptimized = [] →
        (computeKpis m rp bs os).avgUtilizationOptimized = some 0) := by
  have hcnv : ∀ routes, rp.bind TimefoldRoutePlan.routes = some routes →
      ∀ r ∈ routes, ∀ pv ∈ r.visits, waitOf pv ≠ none := by
    intro routes hrb
    cases rp with
    | none => exact absurd hrb (by simp)
    | some plan => exact H plan rfl routes (by simpa using hrb)
  unfold computeKpis
  dsimp only []
  unfold utilMaps
  obtain ⟨g1, g2⟩ := utilFold_bounds m rp _ hcnv m.vehicles ([], [])
    (by intro p hp; simp at hp) (by intro p hp; simp at hp)
  refine ⟨g1, g2, ?_, ?_⟩
  · intro hemp
    rw [hemp, avgUtil_nil]
  · intro hemp
    rw [hemp, avgUtil_nil]

/-- Witness for C7: with no route plan, both utilization maps of the
concrete one-vehicle input have all values in `[0, 100]`. -/
theorem C7_witness :
    (∀ p ∈ (computeKpis oneVehOneVisInput none
        { resources := [], events := [] } none).utilizationByResourceBaseline,
        ∃ z, p.2 = some z ∧ 0 ≤ z ∧ z ≤ 100)
    ∧ (∀ p ∈ (computeKpis oneVehOneVisInput none
        { resources := [], events := [] } none).utilizationByResourceOptimized,
        ∃ z, p.2 = some z ∧ 0 ≤ z ∧ z ≤ 100) :=
  ⟨(C7_utilization_clamped oneVehOneVisInput none
      { resources := [], events := [] } none
      (fun _ h => Option.noConfusion h)).1,
   (C7_utilization_clamped oneVehOneVisInput none
      { resources := [], events := [] } none
      (fun _ h => Option.noConfusion h)).2.1⟩

theorem unassignedEvents_ok_spec (vm : List (String × Visit)) (bms : Int) :
    ∀ (refs : List VisitRef) (k : Nat) (out : List SchedulerEvent),
      unassignedEvents vm (some bms) k refs = .ok out →
      out.length = refs.length ∧
      ∀ (j : Nat) (ref : VisitRef), refs[j]? = some ref →
        out[j]? = some
          { id := "unassigned-" ++ ref.id
            resourceId := "unassigned"
            startDate := .iso (bms + ((k + j) * 45 * 60000 : Nat))
            endDate := .iso (bms + ((k + j) * 45 * 60000 : Nat)
              + (jsOrNat (parseDurationToMinutes ((jsMapGet vm ref.id).map Visit.serviceDuration)) 30 * 60000 : Nat))
            name := jsOrStr3 ref.name ((jsMapGet vm ref.id).map Visit.name) ref.id
            eventType := "visit"
            status := "optimized"
            visitId := some ref.id
            address := getVisitAddress ((jsMapGet vm ref.id).bind Visit.location) } := by
  intro refs
  induction refs with
  | nil =>
    intro k out h
    simp only [unassignedEvents] at h
    cases h
    refine ⟨rfl, ?_⟩
    intro j ref hj
    simp at hj
  | cons ref rest ih =>
    intro k out h
    simp only [unassignedEvents] at h
    rw [unassignedEvent_ok_some] at h
    rw [exceptBind_ok] at h
    obtain ⟨ev?, h1, h2⟩ := h
    have hev := Except.ok.inj h1
    subst hev
    rw [exceptBind_ok] at h2
    obtain ⟨tail, h3, h4⟩ := h2
    cases h4
    obtain ⟨ihlen, ihget⟩ := ih (k + 1) tail h3
    constructor
    · simp [Option.toList, ihlen]
    · intro j r hj
      cases j with
      | zero =>
        simp at hj
        subst hj
        simp [Option.toList]
      | succ j' =>
        simp only [Option.toList]
        simp only [List.cons_append, List.nil_append] at *
        have hj' : rest[j']? = some r := by simpa using hj
        have := ihget j' r hj'
        simpa [Nat.add_assoc, Nat.add_comm, Nat.add_left_comm] using this

/-- C9 (confirmed).  In every successful run of
`mapRoutePlanToOptimizedSchedule`: when the plan's `unassignedVisits` list
is absent or empty, the resources are exactly the vehicle projections (no
synthetic resource) and the events are exactly the route events; when it is
non-empty, the synthetic `unassigned` resource is appended, and after the
route events comes exactly one visit-kind event per reference, the j-th
placed at the fallback base time plus a 45-minute stride per index, named
`reference.name || model visit name || reference.id` (so a reference
`{id: "v9"}` with model visit `v9` named "Checkup" yields an event named
"Checkup"). -/
theorem C9_unassigned_rendering (now : Int) (rp : TimefoldRoutePlan)
    (m : TimefoldModelInput) (d : SchedulerData)
    (h : mapRoutePlanToOptimizedSchedule now rp m = .ok d) :
    ∃ vres revs, mapVehicleResources m.vehicles = .ok vres
      ∧ ((rp.unassignedVisits.getD []).length = 0 →
          d.resources = vres ∧ d.events = revs)
      ∧ (0 < (rp.unassignedVisits.getD []).length →
          d.resources = vres ++ [unassignedResource]
          ∧ ∃ base bms uevs, fallbackBase now m = .ok base ∧ base.parse = some bms
              ∧ d.events = revs ++ uevs
              ∧ uevs.length = (rp.unassignedVisits.getD []).length
              ∧ ∀ (j : Nat) (ref : VisitRef),
                  (rp.unassignedVisits.getD [])[j]? = some ref →
                  uevs[j]? = some
                    { id := "unassigned-" ++ ref.id
                      resourceId := "unassigned"
                      startDate := .iso (bms + (j * 45 * 60000 : Nat))
                      endDate := .iso (bms + (j * 45 * 60000 : Nat)
                        + (jsOrNat (parseDurationToMinutes ((jsMapGet (buildVisitMap m.visits) ref.id).map Visit.serviceDuration)) 30 * 60000 : Nat))
                      name := jsOrStr3 ref.name ((jsMapGet (buildVisitMap m.visits) ref.id).map Visit.name) ref.id
                      eventType := "visit"
                      status := "optimized"
                      visitId := some ref.id
                      address := getVisitAddress ((jsMapGet (buildVisitMap m.visits) ref.id).bind Visit.location) }) := by
  unfold mapRoutePlanToOptimizedSchedule at h
  rw [exceptBind_ok] at h
  obtain ⟨vres, h1, h2⟩ := h
  rw [exceptBind_ok] at h2
  obtain ⟨revs, hrevs, h3⟩ := h2
  refine ⟨vres, revs, h1, ?_, ?_⟩
  all_goals unfold attachUnassigned at h3
  · intro hlen
    split at h3
    · rename_i refs hrefs
      rw [hrefs] at hlen
      simp at hlen
      subst hlen
      rw [if_neg (by simp)] at h3
      cases h3
      exact ⟨rfl, rfl⟩
    · cases h3
      exact ⟨rfl, rfl⟩
  · intro hlen
    split at h3
    · rename_i refs hrefs
      rw [hrefs] at hlen
      simp at hlen
      rw [if_pos (by simpa using hlen)] at h3
      rw [exceptBind_ok] at h3
      obtain ⟨base2, hc1, hc2⟩ := h3
      rw [exceptBind_ok] at hc2
      obtain ⟨uevs, hc3, hc4⟩ := hc2
      cases hc4
      cases hbp : base2.parse with
      | none =>
        exfalso
        rw [hbp] at hc3
        cases refs with
        | nil => simp at hlen
        | cons r rest =>
          simp [unassignedEvents, unassignedEvent, Bind.bind, Except.bind] at hc3
      | some bms =>
        rw [hbp] at hc3
        obtain ⟨hl, hget⟩ :=
          unassignedEvents_ok_spec (buildVisitMap m.visits) bms refs 0 uevs hc3
        refine ⟨rfl, base2, bms, uevs, hc1, hbp, rfl,
          by rw [hrefs]; simpa using hl, ?_⟩
        intro j ref hj
        rw [hrefs] at hj
        simp at hj
        have := hget j ref hj
        simpa using this
    · rename_i hrefs
      rw [hrefs] at hlen
      simp at hlen

/-- Witness for C9: scenario C — plan with `unassignedVisits = [{id: "v9"}]`
and a model visit `v9` named "Checkup" renders the synthetic resource and
one "Checkup" event at the fallback base time. -/
theorem C9_witness :
    ∃ vres revs, mapVehicleResources checkupInput.vehicles = .ok vres
      ∧ ((checkupPlan.unassignedVisits.getD []).length = 0 →
          (SchedulerData.mk
            [{ id := "v1", name := "v1",
               shiftStart := some (.iso 28800000), shiftEnd := some (.iso 57600000) },
             unassignedResource]
            [{ id := "unassigned-v9", resourceId := "unassigned",
               startDate := .iso 28800000, endDate := .iso 30600000,
               name := "Checkup", eventType := "visit", status := "optimized",
               visitId := some "v9" }]).resources = vres
          ∧ (SchedulerData.mk
            [{ id := "v1", name := "v1",
               shiftStart := some (.iso 28800000), shiftEnd := some (.iso 57600000) },
             unassignedResource]
            [{ id := "unassigned-v9", resourceId := "unassigned",
               startDate := .iso 28800000, endDate := .iso 30600000,
               name := "Checkup", eventType := "visit", status := "optimized",
               visitId := some "v9" }]).events = revs)
      ∧ (0 < (checkupPlan.unassignedVisits.getD []).length →
          (SchedulerData.mk
            [{ id := "v1", name := "v1",
               shiftStart := some (.iso 28800000), shiftEnd := some (.iso 57600000) },
             unassignedResource]
            [{ id := "unassigned-v9", resourceId := "unassigned",
               startDate := .iso 28800000, endDate := .iso 30600000,
               name := "Checkup", eventType := "visit", status := "optimized",
               visitId := some "v9" }]).resources = vres ++ [unassignedResource]
          ∧ ∃ base bms uevs, fallbackBase 999 checkupInput = .ok base ∧ base.parse = some bms
              ∧ (SchedulerData.mk
                [{ id := "v1", name := "v1",
                   shiftStart := some (.iso 28800000), shiftEnd := some (.iso 57600000) },
                 unassignedResource]
                [{ id := "unassigned-v9", resourceId := "unassigned",
                   startDate := .iso 28800000, endDate := .iso 30600000,
                   name := "Checkup", eventType := "visit", status := "optimized",
                   visitId := some "v9" }]).events = revs ++ uevs
              ∧ uevs.length = (checkupPlan.unassignedVisits.getD []).length
              ∧ ∀ (j : Nat) (ref : VisitRef),
                  (checkupPlan.unassignedVisits.getD [])[j]? = some ref →
                  uevs[j]? = some
                    { id := "unassigned-" ++ ref.id
                      resourceId := "unassigned"
                      startDate := .iso (bms + (j * 45 * 60000 : Nat))
                      endDate := .iso (bms + (j * 45 * 60000 : Nat)
                        + (jsOrNat (parseDurationToMinutes ((jsMapGet (buildVisitMap checkupInput.visits) ref.id).map Visit.serviceDuration)) 30 * 60000 : Nat))
                      name := jsOrStr3 ref.name ((jsMapGet (buildVisitMap checkupInput.visits) ref.id).map Visit.name) ref.id
                      eventType := "visit"
                      status := "optimized"
                      visitId := some ref.id
                      address := getVisitAddress ((jsMapGet (buildVisitMap checkupInput.visits) ref.id).bind Visit.location) }) :=
  C9_unassigned_rendering 999 checkupPlan checkupInput
    (SchedulerData.mk
      [{ id := "v1", name := "v1",
         shiftStart := some (.iso 28800000), shiftEnd := some (.iso 57600000) },
       unassignedResource]
      [{ id := "unassigned-v9", resourceId := "unassigned",
         startDate := .iso 28800000, endDate := .iso 30600000,
         name := "Checkup", eventType := "visit", status := "optimized",
         visitId := some "v9" }]) rfl
